import Mathlib

/-!
Verification of the BlueprintAI backend core against its specification.

The development shallowly embeds the two core modules:
  * `backend/app/services/normalizer.py` — the blueprint normalization layer,
  * `backend/app/services/llm_service.py` — the provider-cascade LLM client.

Python values flowing through the normalizer are modelled by the `JValue`
type (JSON-like data: `None`, booleans, integers, strings, lists, and
insertion-ordered dicts modelled as association lists).  Python `dict.get`,
truthiness, `str.strip`, `str.split`, and `in` are given explicit
counterparts.  Network calls performed by the cascade are modelled as an
environment function from providers to outcomes, so that theorems can speak
about exactly which providers were attempted.
-/

set_option maxRecDepth 40000

/-- JSON-like Python value: `None`, `bool`, `int`, `str`, `list`, `dict`
(dicts keep insertion order, as CPython dicts do). -/
inductive JValue where
  | null : JValue
  | bool : Bool → JValue
  | int : Int → JValue
  | str : String → JValue
  | list : List JValue → JValue
  | dict : List (String × JValue) → JValue

/-- First-occurrence lookup in an association-list dict (keys are unique in
any dict produced by the code, so this agrees with Python lookup). -/
def dictLookup : List (String × JValue) → String → Option JValue
  | [], _ => none
  | (k, v) :: t, key => if k = key then some v else dictLookup t key

/-- Python `d.get(key)` — `None` when the key is absent. -/
def pyGet (m : List (String × JValue)) (k : String) : JValue :=
  (dictLookup m k).getD .null

/-- Python `d.get(key, default)`. -/
def pyGetD (m : List (String × JValue)) (k : String) (d : JValue) : JValue :=
  (dictLookup m k).getD d

/-- Python truthiness on the embedded values. -/
def pyTruthy : JValue → Bool
  | .null => false
  | .bool b => b
  | .int n => n != 0
  | .str s => s ≠ ""
  | .list l => !l.isEmpty
  | .dict m => !m.isEmpty

/-- Python `a or b` on embedded values. -/
def pyOr (a b : JValue) : JValue := if pyTruthy a then a else b

/-- `isinstance(v, dict)`. -/
def isDictB : JValue → Bool
  | .dict _ => true
  | _ => false

/-- `if not isinstance(data, dict): data = {}` followed by reading the dict. -/
def asDict : JValue → List (String × JValue)
  | .dict m => m
  | _ => []

/-- `if not isinstance(x, list): x = []` followed by reading the list. -/
def asList : JValue → List JValue
  | .list l => l
  | _ => []

/-- Whitespace characters removed by Python `str.strip()` (ASCII fragment,
which covers every string the code manipulates). -/
def isWS (c : Char) : Bool :=
  c = ' ' || c = '\t' || c = '\n' || c = '\r' || c = '\x0b' || c = '\x0c'

/-- `str.strip()` on the character list: drop whitespace at both ends. -/
def pyStripL (l : List Char) : List Char :=
  ((l.dropWhile isWS).reverse.dropWhile isWS).reverse

/-- Python `s.strip()`. -/
def pyStrip (s : String) : String := ⟨pyStripL s.data⟩

/-- `_safe_string` (normalizer.py lines 52–56): keep a truthy string whose
strip is non-empty (stripped), otherwise the default. -/
def safe_string (value : JValue) (default : String) : String :=
  match value with
  | .str s => if s ≠ "" ∧ pyStrip s ≠ "" then pyStrip s else default
  | _ => default

/-- `_safe_list` (normalizer.py lines 59–65): keep a list as-is, otherwise
the default. -/
def safe_list (value : JValue) (default : List JValue) : List JValue :=
  match value with
  | .list l => l
  | _ => default

/-- `_normalize_summary` (normalizer.py lines 68–80). -/
def normalize_summary (data : JValue) : JValue :=
  let m := asDict data
  .dict [
    ("problem_statement", .str (safe_string (pyGet m "problem_statement") "Not provided by AI")),
    ("target_users", .list (safe_list (pyGet m "target_users") [.str "Users"])),
    ("objectives", .list (safe_list (pyGet m "objectives") [.str "Complete the project"])),
    ("scope", .str (safe_string (pyGet m "scope") "Defined by project requirements")),
    ("what_this_means", .str (safe_string (pyGet m "what_this_means") "This section explains your project's purpose")),
    ("why_this_matters", .str (safe_string (pyGet m "why_this_matters") "Understanding this helps you explain your project clearly"))]

/-- One element of the features list (normalizer.py lines 94–101). -/
def normalize_feature_item (f : List (String × JValue)) : JValue :=
  .dict [
    ("feature_name", .str (safe_string (pyGet f "feature_name") "Feature")),
    ("what_it_does", .str (safe_string (pyGet f "what_it_does") "Provides functionality to users")),
    ("why_it_exists", .str (safe_string (pyGet f "why_it_exists") "Addresses a user need")),
    ("how_it_helps", .str (safe_string (pyGet f "how_it_helps") "Improves user experience")),
    ("limitations", .str (safe_string (pyGet f "limitations") "None specified"))]

/-- The `for f in features_list: if isinstance(f, dict)` loop. -/
def normalize_feature_items (l : List JValue) : List JValue :=
  l.filterMap fun f =>
    match f with
    | .dict m => some (normalize_feature_item m)
    | _ => none

/-- Synthetic feature inserted when no valid feature remains
(normalizer.py lines 104–111). -/
def default_features : List JValue :=
  [.dict [
    ("feature_name", .str "Core Feature"),
    ("what_it_does", .str "Provides the main functionality"),
    ("why_it_exists", .str "To solve the core problem"),
    ("how_it_helps", .str "Delivers value to users"),
    ("limitations", .str "Specific limitations depend on implementation")]]

/-- `_normalize_features` (normalizer.py lines 83–113). -/
def normalize_features (data : JValue) : JValue :=
  let m := asDict data
  let fl := asList (pyGetD m "features" (.list []))
  let nf := normalize_feature_items fl
  .dict [("features", .list (if nf.isEmpty then default_features else nf))]

/-- `level not in ["High", "Medium", "Low"]` — Python equality of an
arbitrary object with a string is only true for equal strings. -/
def isAllowedLevel : JValue → Bool
  | .str s => s = "High" || s = "Medium" || s = "Low"
  | _ => false

/-- `_normalize_feasibility` (normalizer.py lines 116–131). -/
def normalize_feasibility (data : JValue) : JValue :=
  let m := asDict data
  let lvl := pyGetD m "feasibility_level" (.str "Medium")
  .dict [
    ("feasibility_level", if isAllowedLevel lvl then lvl else .str "Medium"),
    ("feasibility_explanation", .str (safe_string (pyGet m "feasibility_explanation") "This project is achievable for a college student")),
    ("strengths", .list (safe_list (pyGet m "strengths") [.str "Good educational value"])),
    ("risks", .list (safe_list (pyGet m "risks") [.str "Time management is important"])),
    ("why_this_matters", .str (safe_string (pyGet m "why_this_matters") "Knowing feasibility helps you plan realistically"))]

/-- One element of the system-flow steps list, at 0-based enumeration index
`i` (normalizer.py lines 144–151): `step.get("step_number", i + 1)` keeps a
present value unchanged and defaults a missing one to the position. -/
def normalize_step_item (i : Nat) (step : List (String × JValue)) : JValue :=
  .dict [
    ("step_number", (dictLookup step "step_number").getD (.int (i + 1))),
    ("actor", .str (safe_string (pyGet step "actor") "User")),
    ("action", .str (safe_string (pyGet step "action") "Performs action")),
    ("explanation", .str (safe_string (pyGet step "explanation") "Part of the workflow"))]

/-- The `for i, step in enumerate(steps)` loop: the index advances on every
element, dict or not. -/
def normalize_step_items : Nat → List JValue → List JValue
  | _, [] => []
  | i, v :: t =>
    match v with
    | .dict m => normalize_step_item i m :: normalize_step_items (i + 1) t
    | _ => normalize_step_items (i + 1) t

/-- Synthetic steps inserted when no valid step remains
(normalizer.py lines 154–159). -/
def default_steps : List JValue :=
  [.dict [("step_number", .int 1), ("actor", .str "User"), ("action", .str "Opens application"), ("explanation", .str "Entry point")],
   .dict [("step_number", .int 2), ("actor", .str "System"), ("action", .str "Processes request"), ("explanation", .str "Core processing")],
   .dict [("step_number", .int 3), ("actor", .str "System"), ("action", .str "Returns result"), ("explanation", .str "Output to user")]]

/-- `_normalize_system_flow` (normalizer.py lines 134–165). -/
def normalize_system_flow (data : JValue) : JValue :=
  let m := asDict data
  let steps := asList (pyGetD m "steps" (.list []))
  let ns := normalize_step_items 0 steps
  .dict [
    ("flow_title", .str (safe_string (pyGet m "flow_title") "System Flow")),
    ("steps", .list (if ns.isEmpty then default_steps else ns)),
    ("summary", .str (safe_string (pyGet m "summary") "This flow shows how users interact with the system"))]

/-- One element of the primary tech-stack list (normalizer.py lines 180–186). -/
def normalize_primary_item (item : List (String × JValue)) : JValue :=
  .dict [
    ("category", .str (safe_string (pyGet item "category") "General")),
    ("technology", .str (safe_string (pyGet item "technology") "Technology")),
    ("justification", .str (safe_string (pyGet item "justification") "Suitable for this project")),
    ("skill_level", .str (safe_string (pyGet item "skill_level") "Beginner-friendly"))]

/-- One element of the backup tech-stack list (normalizer.py lines 194–200). -/
def normalize_backup_item (item : List (String × JValue)) : JValue :=
  .dict [
    ("category", .str (safe_string (pyGet item "category") "General")),
    ("technology", .str (safe_string (pyGet item "technology") "Alternative")),
    ("why_backup", .str (safe_string (pyGet item "why_backup") "Alternative option if needed"))]

/-- The primary-stack filtering loop. -/
def normalize_primary_items (l : List JValue) : List JValue :=
  l.filterMap fun v =>
    match v with
    | .dict m => some (normalize_primary_item m)
    | _ => none

/-- The backup-stack filtering loop. -/
def normalize_backup_items (l : List JValue) : List JValue :=
  l.filterMap fun v =>
    match v with
    | .dict m => some (normalize_backup_item m)
    | _ => none

/-- Synthetic primary stack inserted when no valid entry remains
(normalizer.py lines 203–208). -/
def default_primary_stack : List JValue :=
  [.dict [("category", .str "Frontend"), ("technology", .str "HTML/CSS/JavaScript"), ("justification", .str "Universal web technologies"), ("skill_level", .str "Beginner-friendly")],
   .dict [("category", .str "Backend"), ("technology", .str "Python or Node.js"), ("justification", .str "Common choices for web apps"), ("skill_level", .str "Beginner-friendly")],
   .dict [("category", .str "Database"), ("technology", .str "MySQL or MongoDB"), ("justification", .str "Well-documented options"), ("skill_level", .str "Beginner-friendly")]]

/-- `_normalize_tech_stack` (normalizer.py lines 168–213): only the primary
stack has a synthetic fallback; the backup stack may stay empty. -/
def normalize_tech_stack (data : JValue) : JValue :=
  let m := asDict data
  let np := normalize_primary_items (asList (pyGetD m "primary_stack" (.list [])))
  let nb := normalize_backup_items (asList (pyGetD m "backup_stack" (.list [])))
  .dict [
    ("primary_stack", .list (if np.isEmpty then default_primary_stack else np)),
    ("backup_stack", .list nb)]

/-- One element of the existing-solutions list (normalizer.py lines 227–233). -/
def normalize_solution_item (sol : List (String × JValue)) : JValue :=
  .dict [
    ("solution_name", .str (safe_string (pyGet sol "solution_name") "Existing Solution")),
    ("what_it_does", .str (safe_string (pyGet sol "what_it_does") "Provides similar functionality")),
    ("limitations", .str (safe_string (pyGet sol "limitations") "May not fit specific needs"))]

/-- The existing-solutions filtering loop. -/
def normalize_solution_items (l : List JValue) : List JValue :=
  l.filterMap fun v =>
    match v with
    | .dict m => some (normalize_solution_item m)
    | _ => none

/-- `_normalize_comparison` (normalizer.py lines 216–246): note that
`existing_solutions` has no synthetic fallback, and that the why-valuable
field is read through a Python `or` of two alternative keys. -/
def normalize_comparison (data : JValue) : JValue :=
  let m := asDict data
  .dict [
    ("existing_solutions", .list (normalize_solution_items (asList (pyGetD m "existing_solutions" (.list []))))),
    ("unique_aspects", .list (safe_list (pyGet m "unique_aspects") [.str "Custom solution for specific needs"])),
    ("why_this_project_is_still_valuable", .list (safe_list
      (pyOr (pyGet m "why_this_project_is_still_valuable") (pyGet m "why_still_valuable"))
      [.str "Learning experience", .str "Tailored to specific requirements"])),
    ("summary_insight", .str (safe_string (pyGet m "summary_insight") "Even though similar systems exist, this project provides valuable learning and customization opportunities."))]

/-- One element of the common viva questions list (normalizer.py lines 260–266). -/
def normalize_common_q_item (q : List (String × JValue)) : JValue :=
  .dict [
    ("question", .str (safe_string (pyGet q "question") "Question")),
    ("suggested_answer", .str (safe_string (pyGet q "suggested_answer") "Provide a clear, concise answer")),
    ("why_asked", .str (safe_string (pyGet q "why_asked") "To assess your understanding"))]

/-- One element of the hackathon questions list (normalizer.py lines 274–280). -/
def normalize_hackathon_q_item (q : List (String × JValue)) : JValue :=
  .dict [
    ("question", .str (safe_string (pyGet q "question") "Question")),
    ("suggested_response", .str (safe_string (pyGet q "suggested_response") "Provide a confident response")),
    ("key_points", .list (safe_list (pyGet q "key_points") [.str "Focus on value delivered"]))]

/-- The common-questions filtering loop. -/
def normalize_common_q_items (l : List JValue) : List JValue :=
  l.filterMap fun v =>
    match v with
    | .dict m => some (normalize_common_q_item m)
    | _ => none

/-- The hackathon-questions filtering loop. -/
def normalize_hackathon_q_items (l : List JValue) : List JValue :=
  l.filterMap fun v =>
    match v with
    | .dict m => some (normalize_hackathon_q_item m)
    | _ => none

/-- Synthetic common questions (normalizer.py lines 283–287). -/
def default_common_questions : List JValue :=
  [.dict [("question", .str "Why did you choose this project?"), ("suggested_answer", .str "It solves a real problem I observed"), ("why_asked", .str "Tests motivation")],
   .dict [("question", .str "What challenges did you face?"), ("suggested_answer", .str "Learning new technologies and time management"), ("why_asked", .str "Tests problem-solving")]]

/-- Synthetic hackathon questions (normalizer.py lines 289–292). -/
def default_hackathon_questions : List JValue :=
  [.dict [("question", .str "What makes this unique?"), ("suggested_response", .str "Tailored to specific user needs"), ("key_points", .list [.str "User focus", .str "Practical value"])]]

/-- `_normalize_viva` (normalizer.py lines 249–301). -/
def normalize_viva (data : JValue) : JValue :=
  let m := asDict data
  let nc := normalize_common_q_items (asList (pyGetD m "common_questions" (.list [])))
  let nh := normalize_hackathon_q_items (asList (pyGetD m "hackathon_questions" (.list [])))
  .dict [
    ("project_overview_explanation", .str (safe_string (pyGet m "project_overview_explanation") "This project solves a real problem using modern technology")),
    ("problem_statement_explanation", .str (safe_string (pyGet m "problem_statement_explanation") "The problem affects users in their daily workflow")),
    ("architecture_explanation", .str (safe_string (pyGet m "architecture_explanation") "The system uses a standard three-tier architecture")),
    ("unique_feature_explanation", .str (safe_string (pyGet m "unique_feature_explanation") "What makes this project special is its focus on the user experience")),
    ("common_questions", .list (if nc.isEmpty then default_common_questions else nc)),
    ("hackathon_questions", .list (if nh.isEmpty then default_hackathon_questions else nh))]

/-- `_normalize_pitch` (normalizer.py lines 304–319). -/
def normalize_pitch (data : JValue) : JValue :=
  let m := asDict data
  .dict [
    ("thirty_second_pitch", .str (safe_string (pyGet m "thirty_second_pitch") "This project solves a real problem by providing an efficient digital solution. It saves time, reduces errors, and improves the user experience.")),
    ("one_minute_pitch", .str (safe_string (pyGet m "one_minute_pitch") "Every day, users face challenges with manual processes. This project automates those processes, providing a faster, more reliable solution. Built with modern technologies, it's designed to be user-friendly and scalable. The system is ideal for educational or organizational settings where efficiency matters.")),
    ("key_points", .list (safe_list (pyGet m "key_points") [.str "Solves real problem", .str "Saves time", .str "User-friendly"]))]

/-- The default user-flow Mermaid diagram (normalizer.py lines 328–337). -/
def default_user_flow : String :=
  "flowchart TD\n    A[User Opens App] --> B\x7bLogin Required?\x7d\n    B -->|Yes| C[Login Page]\n    B -->|No| D[Dashboard]\n    C --> E[Enter Credentials]\n    E --> F\x7bValid?\x7d\n    F -->|No| C\n    F -->|Yes| D\n    D --> G[Use Features]\n    G --> H[Complete Task]"

/-- The default tech-stack Mermaid diagram (normalizer.py lines 339–350). -/
def default_tech_stack_flow : String :=
  "flowchart LR\n    subgraph Frontend\n        A[Web Interface]\n    end\n    subgraph Backend\n        B[API Server]\n    end\n    subgraph Database\n        C[(Data Storage)]\n    end\n    A -->|HTTP| B\n    B -->|Queries| C"

/-- `_normalize_diagrams` (normalizer.py lines 322–355). -/
def normalize_diagrams (data : JValue) : JValue :=
  let m := asDict data
  .dict [
    ("user_flow_mermaid", .str (safe_string (pyGet m "user_flow_mermaid") default_user_flow)),
    ("tech_stack_mermaid", .str (safe_string (pyGet m "tech_stack_mermaid") default_tech_stack_flow))]

/-- `get_fallback_blueprint` (normalizer.py lines 358–374). -/
def get_fallback_blueprint : JValue :=
  .dict [
    ("summary", normalize_summary (.dict [])),
    ("features", normalize_features (.dict [])),
    ("feasibility", normalize_feasibility (.dict [])),
    ("system_flow", normalize_system_flow (.dict [])),
    ("tech_stack", normalize_tech_stack (.dict [])),
    ("comparison", normalize_comparison (.dict [])),
    ("viva", normalize_viva (.dict [])),
    ("pitch", normalize_pitch (.dict [])),
    ("diagrams", normalize_diagrams (.dict []))]

/-- `normalize_blueprint` (normalizer.py lines 23–49): falsy or non-dict
input falls back; otherwise each section is normalized independently. -/
def normalize_blueprint (raw : JValue) : JValue :=
  if !pyTruthy raw || !isDictB raw then get_fallback_blueprint
  else
    let m := asDict raw
    .dict [
      ("summary", normalize_summary (pyGetD m "summary" (.dict []))),
      ("features", normalize_features (pyGetD m "features" (.dict []))),
      ("feasibility", normalize_feasibility (pyGetD m "feasibility" (.dict []))),
      ("system_flow", normalize_system_flow (pyGetD m "system_flow" (.dict []))),
      ("tech_stack", normalize_tech_stack (pyGetD m "tech_stack" (.dict []))),
      ("comparison", normalize_comparison (pyGetD m "comparison" (.dict []))),
      ("viva", normalize_viva (pyGetD m "viva" (.dict []))),
      ("pitch", normalize_pitch (pyGetD m "pitch" (.dict []))),
      ("diagrams", normalize_diagrams (pyGetD m "diagrams" (.dict [])))]

/-- `normalized["summary"]` — subscript access.  Python raises `KeyError`
on a missing key; every reachable use in `map_to_frontend_format` accesses
keys the normalizer always produces, so the `.null` default never fires. -/
def jGet (v : JValue) (k : String) : JValue := pyGet (asDict v) k

/-- `map_to_frontend_format` (normalizer.py lines 377–435). -/
def map_to_frontend_format (normalized : JValue) : JValue :=
  .dict [
    ("expandedIdea", .dict [
      ("problem_statement", jGet (jGet normalized "summary") "problem_statement"),
      ("target_users", jGet (jGet normalized "summary") "target_users"),
      ("objectives", jGet (jGet normalized "summary") "objectives"),
      ("scope", jGet (jGet normalized "summary") "scope"),
      ("what_this_means", jGet (jGet normalized "summary") "what_this_means"),
      ("why_this_matters", jGet (jGet normalized "summary") "why_this_matters")]),
    ("evaluation", jGet normalized "feasibility"),
    ("featuresDetailed", jGet normalized "features"),
    ("systemFlow", jGet normalized "system_flow"),
    ("techStack", jGet (jGet normalized "tech_stack") "primary_stack"),
    ("techStackExtended", .dict [
      ("primary_stack", jGet (jGet normalized "tech_stack") "primary_stack"),
      ("alternatives", jGet (jGet normalized "tech_stack") "backup_stack")]),
    ("comparison", jGet normalized "comparison"),
    ("vivaGuide", .dict [
      ("project_overview_explanation", jGet (jGet normalized "viva") "project_overview_explanation"),
      ("problem_statement_explanation", jGet (jGet normalized "viva") "problem_statement_explanation"),
      ("architecture_explanation", jGet (jGet normalized "viva") "architecture_explanation"),
      ("unique_feature_explanation", jGet (jGet normalized "viva") "unique_feature_explanation"),
      ("common_questions", jGet (jGet normalized "viva") "common_questions")]),
    ("hackathonViva", .dict [
      ("viva_questions", jGet (jGet normalized "viva") "common_questions"),
      ("hackathon_questions", jGet (jGet normalized "viva") "hackathon_questions")]),
    ("pitch", jGet normalized "pitch"),
    ("userFlowMermaid", jGet (jGet normalized "diagrams") "user_flow_mermaid"),
    ("techStackMermaid", jGet (jGet normalized "diagrams") "tech_stack_mermaid")]

/-!
## LLM service embedding (`backend/app/services/llm_service.py`)

The HTTP calls inside `_call_gemini` / `_call_groq` / `_call_openrouter` are
modelled by an environment `env : Provider → String → ProviderOutcome`: for
a given provider and prompt it yields either the dict those functions return
(`{"success": True, "content": …}` or `{"success": False, "error": …}`) or
an exception escaping them.  The cascade itself is embedded exactly, and it
additionally returns the list of providers that were attempted, in order,
so that theorems can speak about which endpoints were called.
-/

/-- The three cascade providers, in the fixed `PROVIDER_ORDER`. -/
inductive Provider where
  | gemini : Provider
  | groq : Provider
  | openrouter : Provider
  deriving DecidableEq

/-- The provider name strings used by the code. -/
def providerName : Provider → String
  | .gemini => "gemini"
  | .groq => "groq"
  | .openrouter => "openrouter"

/-- The dict returned by a `_call_*` function: every return site is either
`{"success": True, "content": c}` or `{"success": False, "error": e}`. -/
inductive ProvResult where
  | ok (content : String) : ProvResult
  | err (error : String) : ProvResult

/-- Outcome of one provider attempt: a returned result dict, or an
exception escaping the call (caught by the cascade's `except` clause). -/
inductive ProviderOutcome where
  | ret (r : ProvResult) : ProviderOutcome
  | exn (msg : String) : ProviderOutcome

/-- The dict returned by `generate_with_fallback`. -/
structure GenResult where
  success : Bool
  content : Option String
  provider_used : Option String
  error : Option String
  error_details : Option (List String)
  is_demo : Bool
  deriving DecidableEq

/-- `_has_valid_key` (llm_service.py lines 60–62): truthy, non-blank after
strip, and not the placeholder. -/
def hasValidKey (key : String) : Bool :=
  key ≠ "" && pyStrip key ≠ "" && key ≠ "YOUR_API_KEY_HERE"

/-- `IS_DEMO_MODE` (llm_service.py lines 65–69). -/
def isDemoMode (gk grk ork : String) : Bool :=
  !(hasValidKey gk || hasValidKey grk || hasValidKey ork)

/-- `_build_provider_list` (llm_service.py lines 106–115): the fixed order
gemini, groq, openrouter restricted to configured keys. -/
def build_provider_list (gk grk ork : String) : List Provider :=
  (if hasValidKey gk then [Provider.gemini] else []) ++
  (if hasValidKey grk then [Provider.groq] else []) ++
  (if hasValidKey ork then [Provider.openrouter] else [])

/-- The fixed user-facing message returned when every provider fails. -/
def busyMessage : String := "AI services are temporarily busy. Please try again later."

/-- The provider loop of `generate_with_fallback` (llm_service.py lines
152–188), also reporting the attempted providers in order.  On a success the
provider's result dict is returned with `provider_used` set; on a failure or
exception the reason `f"{provider}: {msg}"` is appended and the next
provider is tried; when the list is exhausted the aggregate failure dict is
returned. -/
def runCascade (env : Provider → String → ProviderOutcome) (prompt : String) :
    List Provider → List String → GenResult × List Provider
  | [], errors =>
    ({ success := false, content := none, provider_used := none,
       error := some busyMessage, error_details := some errors, is_demo := false }, [])
  | p :: rest, errors =>
    match env p prompt with
    | .ret (.ok c) =>
      ({ success := true, content := some c, provider_used := some (providerName p),
         error := none, error_details := none, is_demo := false }, [p])
    | .ret (.err e) =>
      let r := runCascade env prompt rest (errors ++ [providerName p ++ ": " ++ e])
      (r.1, p :: r.2)
    | .exn msg =>
      let r := runCascade env prompt rest (errors ++ [providerName p ++ ": " ++ msg])
      (r.1, p :: r.2)

/-- Python `s.lower()` (ASCII fragment, all the dispatch keywords are ASCII). -/
def pyLower (s : String) : String := ⟨s.data.map Char.toLower⟩

/-- Python `needle in hay` on character lists. -/
def containsSubL : List Char → List Char → Bool
  | [], n => n.isEmpty
  | h :: t, n => n.isPrefixOf (h :: t) || containsSubL t n

/-- Python `needle in hay` for strings. -/
def containsSub (hay needle : String) : Bool := containsSubL hay.data needle.data

/-- JSON string escaping as `json.dumps` performs it for the characters
occurring in the demo payloads. -/
def jsonEscapeChar (c : Char) : String :=
  if c = '"' then "\\\"" else if c = '\\' then "\\\\"
  else if c = '\n' then "\\n" else if c = '\t' then "\\t" else if c = '\r' then "\\r"
  else String.singleton c

/-- JSON string escaping of a whole string. -/
def jsonEscape (s : String) : String := String.join (s.data.map jsonEscapeChar)

mutual

/-- `json.dumps` with the default separators, for the embedded values. -/
def jsonDump : JValue → String
  | .null => "null"
  | .bool true => "true"
  | .bool false => "false"
  | .int n => toString n
  | .str s => "\"" ++ jsonEscape s ++ "\""
  | .list l => "[" ++ jsonDumpElems l ++ "]"
  | .dict m => "\x7b" ++ jsonDumpMembers m ++ "\x7d"

/-- Comma-joined dump of list elements. -/
def jsonDumpElems : List JValue → String
  | [] => ""
  | [v] => jsonDump v
  | v :: vs => jsonDump v ++ ", " ++ jsonDumpElems vs

/-- Comma-joined dump of dict members. -/
def jsonDumpMembers : List (String × JValue) → String
  | [] => ""
  | [(k, v)] => "\"" ++ jsonEscape k ++ "\": " ++ jsonDump v
  | (k, v) :: kvs => "\"" ++ jsonEscape k ++ "\": " ++ jsonDump v ++ ", " ++ jsonDumpMembers kvs

end

/-- The demo blueprint returned by `_get_demo_blueprint`
(llm_service.py lines 610–707). -/
def demo_blueprint : JValue :=
  .dict [
    ("summary", .dict [
      ("problem_statement", .str "Students and teachers struggle with manual attendance tracking, leading to errors and wasted time."),
      ("target_users", .list [.str "Students", .str "Teachers", .str "Administrators"]),
      ("objectives", .list [.str "Automate attendance marking", .str "Reduce manual errors", .str "Generate reports automatically", .str "Track attendance history"]),
      ("scope", .str "Web-based attendance system for a single educational institution"),
      ("what_this_means", .str "This project replaces paper-based attendance with a digital solution"),
      ("why_this_matters", .str "Understanding scope helps you stay focused and explain your project clearly")]),
    ("features", .dict [
      ("features", .list [
        .dict [
          ("feature_name", .str "User Authentication"),
          ("what_it_does", .str "Allows different users to log in securely"),
          ("why_it_exists", .str "To protect student data and ensure only authorized access"),
          ("how_it_helps", .str "Teachers can only see their classes, students can only see their records"),
          ("limitations", .str "Requires password reset mechanism for forgotten passwords")],
        .dict [
          ("feature_name", .str "Attendance Marking"),
          ("what_it_does", .str "Teachers can mark present/absent for each student"),
          ("why_it_exists", .str "Core functionality that replaces manual roll call"),
          ("how_it_helps", .str "Saves 5-10 minutes per class"),
          ("limitations", .str "Requires internet connectivity")]])]),
    ("feasibility", .dict [
      ("feasibility_level", .str "High"),
      ("feasibility_explanation", .str "Uses standard web technologies taught in most colleges"),
      ("strengths", .list [.str "Clear requirements", .str "Well-documented technologies", .str "Real-world application"]),
      ("risks", .list [.str "Security implementation", .str "Database design", .str "Time management"]),
      ("why_this_matters", .str "Knowing feasibility helps you plan realistically")]),
    ("system_flow", .dict [
      ("flow_title", .str "Attendance Marking Flow"),
      ("steps", .list [
        .dict [("step_number", .int 1), ("actor", .str "User"), ("action", .str "Opens application"), ("explanation", .str "Entry point")],
        .dict [("step_number", .int 2), ("actor", .str "System"), ("action", .str "Shows login page"), ("explanation", .str "Security first")],
        .dict [("step_number", .int 3), ("actor", .str "Teacher"), ("action", .str "Enters credentials"), ("explanation", .str "Authentication")],
        .dict [("step_number", .int 4), ("actor", .str "System"), ("action", .str "Validates and shows dashboard"), ("explanation", .str "Role-based access")],
        .dict [("step_number", .int 5), ("actor", .str "Teacher"), ("action", .str "Selects class"), ("explanation", .str "Choose which class to mark")],
        .dict [("step_number", .int 6), ("actor", .str "System"), ("action", .str "Shows student list"), ("explanation", .str "Display markable students")],
        .dict [("step_number", .int 7), ("actor", .str "Teacher"), ("action", .str "Marks attendance"), ("explanation", .str "Core action")],
        .dict [("step_number", .int 8), ("actor", .str "System"), ("action", .str "Saves and confirms"), ("explanation", .str "Persistence and feedback")]]),
      ("summary", .str "Simple 8-step flow from login to confirmation")]),
    ("tech_stack", .dict [
      ("primary_stack", .list [
        .dict [("category", .str "Frontend"), ("technology", .str "React"), ("justification", .str "Component-based, well-documented"), ("skill_level", .str "Intermediate")],
        .dict [("category", .str "Backend"), ("technology", .str "Node.js + Express"), ("justification", .str "JavaScript throughout the stack"), ("skill_level", .str "Beginner-friendly")],
        .dict [("category", .str "Database"), ("technology", .str "MongoDB"), ("justification", .str "Flexible schema, easy to learn"), ("skill_level", .str "Beginner-friendly")]]),
      ("backup_stack", .list [
        .dict [("category", .str "Frontend"), ("technology", .str "Vue.js"), ("why_backup", .str "Simpler learning curve if React is too complex")],
        .dict [("category", .str "Backend"), ("technology", .str "Python Flask"), ("why_backup", .str "If JavaScript backend is challenging")]])]),
    ("comparison", .dict [
      ("existing_solutions", .list [
        .dict [("solution_name", .str "Google Forms"), ("what_it_does", .str "Basic data collection"), ("limitations", .str "No role-based access, no reports")],
        .dict [("solution_name", .str "Enterprise ERP systems"), ("what_it_does", .str "Full institution management"), ("limitations", .str "Too complex and expensive for single use case")]]),
      ("unique_aspects", .list [.str "Focused on college use case", .str "Student-friendly interface", .str "Built-in report generation"]),
      ("why_this_project_is_still_valuable", .list [.str "Learning experience", .str "Customizable for specific needs", .str "No licensing costs"]),
      ("summary_insight", .str "While attendance systems exist, this project provides hands-on learning while creating something tailored to your institution's specific needs.")]),
    ("viva", .dict [
      ("project_overview_explanation", .str "This is a web-based attendance system that helps teachers mark attendance digitally and generate reports automatically."),
      ("problem_statement_explanation", .str "Manual attendance wastes 5-10 minutes per class and is prone to errors. Our system automates this completely."),
      ("architecture_explanation", .str "We use a three-tier architecture: React frontend talks to Node.js backend, which stores data in MongoDB."),
      ("unique_feature_explanation", .str "Automatic report generation sets us apart from simple digital forms."),
      ("common_questions", .list [
        .dict [("question", .str "Why did you choose this tech stack?"), ("suggested_answer", .str "React for reusable components, Node.js for JavaScript consistency, MongoDB for flexible data storage."), ("why_asked", .str "Tests if you made informed choices")],
        .dict [("question", .str "What are the limitations?"), ("suggested_answer", .str "Requires internet, no offline mode, single institution only."), ("why_asked", .str "Tests honesty and self-awareness")]]),
      ("hackathon_questions", .list [
        .dict [("question", .str "What makes this unique?"), ("suggested_response", .str "Built specifically for college context with student-friendly design"), ("key_points", .list [.str "Focus on UX", .str "Report generation", .str "Role-based access"])]])]),
    ("pitch", .dict [
      ("thirty_second_pitch", .str "Teachers spend 5-10 minutes every class on attendance. Our digital system does it in 30 seconds with zero errors and automatic reports."),
      ("one_minute_pitch", .str "Imagine never losing an attendance register again. Our system lets teachers mark attendance with a few clicks, generates reports instantly, and gives students transparency into their records. Built with modern web technologies, it's designed specifically for college environments."),
      ("key_points", .list [.str "Saves time", .str "Eliminates errors", .str "Automatic reports", .str "Role-based access"])]),
    ("diagrams", .dict [
      ("user_flow_mermaid", .str "flowchart TD\n    A[User Opens App] --> B\x7bLogged In?\x7d\n    B -->|No| C[Login Page]\n    B -->|Yes| D[Dashboard]\n    C --> E[Enter Credentials]\n    E --> F\x7bValid?\x7d\n    F -->|No| C\n    F -->|Yes| D\n    D --> G[Select Class]\n    G --> H[Mark Attendance]\n    H --> I[Save & Confirm]"),
      ("tech_stack_mermaid", .str "flowchart LR\n    subgraph Frontend\n        A[React App]\n    end\n    subgraph Backend\n        B[Node.js API]\n    end\n    subgraph Database\n        C[(MongoDB)]\n    end\n    A -->|HTTP| B\n    B -->|Queries| C")])]

/-- The demo expanded problem statement (llm_service.py lines 585–601). -/
def demo_problem_statement : JValue :=
  .dict [
    ("problem_statement", .str "Students often spend valuable time manually tracking attendance, which is error-prone and time-consuming. A digital attendance system would automate this process, saving time and improving accuracy."),
    ("target_users", .list [.str "Students", .str "Teachers", .str "Administrators"]),
    ("objectives", .list [
      .str "Automate the attendance tracking process",
      .str "Reduce manual errors in attendance records",
      .str "Provide easy access to attendance history",
      .str "Generate attendance reports automatically"]),
    ("scope", .str "This project covers a web-based attendance system for a single institution. Mobile app development and biometric integration are outside the current scope."),
    ("what_this_means", .str "Your project will help educational institutions move from paper-based attendance to a digital system that saves time and reduces errors."),
    ("why_this_matters", .str "Understanding your problem statement clearly is essential for explaining your project confidently in any review.")]

/-- The generic demo message (llm_service.py line 606). -/
def demo_generic_message : String :=
  "This is a demo response. Please configure at least one API key in the .env file for full AI functionality. The system supports: GEMINI_API_KEY, GROQ_API_KEY, or OPENROUTER_API_KEY (all free!)."

/-- `_get_demo_response` (llm_service.py lines 567–608): keyword dispatch on
the lowered prompt; every branch returns a success dict tagged `is_demo`. -/
def get_demo_response (prompt : String) : GenResult :=
  let pl := pyLower prompt
  if containsSub pl "master" || containsSub pl "blueprint" || containsSub pl "full" then
    { success := true, content := some (jsonDump demo_blueprint), provider_used := none,
      error := none, error_details := none, is_demo := true }
  else if containsSub pl "problem statement" || containsSub pl "expand" then
    { success := true, content := some (jsonDump demo_problem_statement), provider_used := none,
      error := none, error_details := none, is_demo := true }
  else
    { success := true, content := some demo_generic_message, provider_used := none,
      error := none, error_details := none, is_demo := true }

/-- `generate_with_fallback` (llm_service.py lines 121–188), for a service
instance constructed from the three key strings: in demo mode the demo
response is returned tagged `provider_used = "demo"` with no provider
attempted; otherwise the cascade runs over the configured provider list.
The second component is the list of providers actually attempted. -/
def generate_with_fallback (gk grk ork : String) (env : Provider → String → ProviderOutcome)
    (prompt : String) : GenResult × List Provider :=
  if isDemoMode gk grk ork then
    ({ get_demo_response prompt with provider_used := some "demo" }, [])
  else
    runCascade env prompt (build_provider_list gk grk ork) []

/-- Python `s.split(sep)` on character lists, with fuel (the callers pass
`l.length + 1`, which always suffices since every step consumes at least one
character); `sep` is one of the non-empty fence markers. -/
def pySplitAux (sep : List Char) : Nat → List Char → List Char → List (List Char)
  | 0, acc, l => [acc.reverse ++ l]
  | fuel + 1, acc, l =>
    if sep.isPrefixOf l then
      acc.reverse :: pySplitAux sep fuel [] (l.drop sep.length)
    else
      match l with
      | [] => [acc.reverse]
      | c :: t => pySplitAux sep fuel (c :: acc) t

/-- Python `s.split(sep)` for a non-empty separator. -/
def pySplit (s sep : String) : List String :=
  (pySplitAux sep.data (s.data.length + 1) [] s.data).map fun l => ⟨l⟩

/-- The fence-stripping and brace-seeking steps of
`generate_json_with_fallback` (llm_service.py lines 214–228): cut out the
segment after ` ```json ` (up to the next fence), else the second ` ``` `
segment, strip, and drop any prose before the first opening brace. -/
def extract_json_text (content : String) : String :=
  let c1 :=
    if containsSub content "```json" then
      (pySplit ((pySplit content "```json").getD 1 "") "```").getD 0 ""
    else if containsSub content "```" then
      let parts := pySplit content "```"
      if 2 ≤ parts.length then parts.getD 1 "" else content
    else content
  let c2 := pyStrip c1
  if "\x7b".data.isPrefixOf c2.data then c2
  else
    match c2.data.findIdx? (fun c => c = '\x7b') with
    | some i => ⟨c2.data.drop i⟩
    | none => c2

/-- Whitespace skipped by the JSON grammar. -/
def jsonWsChar (c : Char) : Bool := c = ' ' || c = '\t' || c = '\n' || c = '\r'

/-- Skip JSON whitespace. -/
def skipJsonWs (l : List Char) : List Char := l.dropWhile jsonWsChar

/-- Parse the remainder of a JSON string literal (after the opening quote),
handling the escapes `json` emits; `\u` escapes are out of the modelled
fragment and make the parse fail. -/
def parseJsonStrAux : List Char → List Char → Option (String × List Char)
  | _, [] => none
  | acc, '"' :: t => some (⟨acc.reverse⟩, t)
  | acc, '\\' :: e :: t =>
    if e = '"' then parseJsonStrAux ('"' :: acc) t
    else if e = '\\' then parseJsonStrAux ('\\' :: acc) t
    else if e = '/' then parseJsonStrAux ('/' :: acc) t
    else if e = 'n' then parseJsonStrAux ('\n' :: acc) t
    else if e = 't' then parseJsonStrAux ('\t' :: acc) t
    else if e = 'r' then parseJsonStrAux ('\r' :: acc) t
    else if e = 'b' then parseJsonStrAux ('\x08' :: acc) t
    else if e = 'f' then parseJsonStrAux ('\x0c' :: acc) t
    else none
  | acc, c :: t => parseJsonStrAux (c :: acc) t

/-- Digits to a natural number. -/
def digitsToNat (ds : List Char) : Nat :=
  ds.foldl (fun a c => a * 10 + (c.toNat - 48)) 0

mutual

/-- Recursive-descent parser for the integer fragment of JSON that
`json.loads` is applied to in this codebase (objects, arrays, strings,
integers, booleans, null); floats and `\u` escapes fail the parse.  Fuel
`s.length + 1` always suffices. -/
def parseJsonVal : Nat → List Char → Option (JValue × List Char)
  | 0, _ => none
  | fuel + 1, l =>
    match skipJsonWs l with
    | '\x7b' :: t =>
      match skipJsonWs t with
      | '\x7d' :: r => some (.dict [], r)
      | r => parseJsonMembers fuel r []
    | '[' :: t =>
      match skipJsonWs t with
      | ']' :: r => some (.list [], r)
      | r => parseJsonElems fuel r []
    | '"' :: t => (parseJsonStrAux [] t).map fun p => (.str p.1, p.2)
    | 't' :: 'r' :: 'u' :: 'e' :: r => some (.bool true, r)
    | 'f' :: 'a' :: 'l' :: 's' :: 'e' :: r => some (.bool false, r)
    | 'n' :: 'u' :: 'l' :: 'l' :: r => some (.null, r)
    | '-' :: t =>
      let ds := t.takeWhile Char.isDigit
      if ds.isEmpty then none
      else some (.int (-(digitsToNat ds : Int)), t.drop ds.length)
    | c :: t =>
      if c.isDigit then
        let ds := (c :: t).takeWhile Char.isDigit
        some (.int (digitsToNat ds), (c :: t).drop ds.length)
      else none
    | [] => none

/-- Parse the members of a JSON object (after at least one member is known
to follow). -/
def parseJsonMembers : Nat → List Char → List (String × JValue) → Option (JValue × List Char)
  | 0, _, _ => none
  | fuel + 1, l, acc =>
    match skipJsonWs l with
    | '"' :: t =>
      match parseJsonStrAux [] t with
      | none => none
      | some (k, r) =>
        match skipJsonWs r with
        | ':' :: r2 =>
          match parseJsonVal fuel r2 with
          | none => none
          | some (v, r3) =>
            match skipJsonWs r3 with
            | ',' :: r4 => parseJsonMembers fuel r4 (acc ++ [(k, v)])
            | '\x7d' :: r4 => some (.dict (acc ++ [(k, v)]), r4)
            | _ => none
        | _ => none
    | _ => none

/-- Parse the elements of a JSON array (after at least one element is known
to follow). -/
def parseJsonElems : Nat → List Char → List JValue → Option (JValue × List Char)
  | 0, _, _ => none
  | fuel + 1, l, acc =>
    match parseJsonVal fuel l with
    | none => none
    | some (v, r) =>
      match skipJsonWs r with
      | ',' :: r2 => parseJsonElems fuel r2 (acc ++ [v])
      | ']' :: r2 => some (.list (acc ++ [v]), r2)
      | _ => none

end

/-- `json.loads` on the modelled fragment: a full parse of the whole string
(up to trailing whitespace) or failure. -/
def jsonLoads (s : String) : Option JValue :=
  match parseJsonVal (s.data.length + 1) s.data with
  | some (v, rest) => if (skipJsonWs rest).isEmpty then some v else none
  | none => none

/-- The instruction appended to the prompt by `generate_json_with_fallback`
(llm_service.py line 203). -/
def json_instruction : String :=
  "\n\nIMPORTANT: Respond ONLY with valid JSON. No markdown code blocks, no explanation, just the raw JSON object."

/-- The fixed prefix of the warning attached when JSON parsing fails
(llm_service.py line 242); the Python code appends the decoder's message,
which no claim depends on. -/
def jsonWarningText : String :=
  "Response was not valid JSON, returning raw text. Parse error: "

/-- The dict returned by `generate_json_with_fallback`: `content` may now be
parsed structured data (`JValue`) or the raw text. -/
structure JsonGenResult where
  success : Bool
  content : Option JValue
  provider_used : Option String
  error : Option String
  error_details : Option (List String)
  warning : Option String
  is_demo : Bool

/-- `generate_json_with_fallback` (llm_service.py lines 190–243): append the
JSON instruction, run the cascade, pass a failure through unchanged; on a
success try to parse the fenced-stripped content, returning the parsed data,
or on parse failure a success carrying the original raw text plus a
warning. -/
def generate_json_with_fallback (gk grk ork : String)
    (env : Provider → String → ProviderOutcome) (prompt : String) :
    JsonGenResult × List Provider :=
  let r := generate_with_fallback gk grk ork env (prompt ++ json_instruction)
  let res := r.1
  if !res.success then
    ({ success := res.success, content := none, provider_used := res.provider_used,
       error := res.error, error_details := res.error_details, warning := none,
       is_demo := res.is_demo }, r.2)
  else
    match res.content with
    | some c =>
      match jsonLoads (extract_json_text c) with
      | some parsed =>
        ({ success := true, content := some parsed, provider_used := res.provider_used,
           error := none, error_details := none, warning := none, is_demo := false }, r.2)
      | none =>
        ({ success := true, content := some (.str c), provider_used := res.provider_used,
           error := none, error_details := none, warning := some jsonWarningText,
           is_demo := false }, r.2)
    | none =>
      ({ success := true, content := none, provider_used := res.provider_used,
         error := none, error_details := none, warning := none, is_demo := false }, r.2)

/-!
## Schema checker

`blueprintOK` decides the contract the spec states for normalized output:
exactly the nine sections, every required scalar field a non-empty string,
list fields lists, and the feasibility level inside its legal set.
-/

/-- The value is a non-empty string. -/
def neStr : JValue → Bool
  | .str s => s ≠ ""
  | _ => false

/-- The value is a list. -/
def isListB : JValue → Bool
  | .list _ => true
  | _ => false

/-- The keys of a dict, in order. -/
def dictKeys (m : List (String × JValue)) : List String := m.map Prod.fst

/-- Schema of a normalized summary section. -/
def summaryOK : JValue → Bool
  | .dict m =>
    dictKeys m == ["problem_statement", "target_users", "objectives", "scope", "what_this_means", "why_this_matters"] &&
    neStr (pyGet m "problem_statement") && isListB (pyGet m "target_users") &&
    isListB (pyGet m "objectives") && neStr (pyGet m "scope") &&
    neStr (pyGet m "what_this_means") && neStr (pyGet m "why_this_matters")
  | _ => false

/-- Schema of a normalized feature record. -/
def featureItemOK : JValue → Bool
  | .dict m =>
    dictKeys m == ["feature_name", "what_it_does", "why_it_exists", "how_it_helps", "limitations"] &&
    neStr (pyGet m "feature_name") && neStr (pyGet m "what_it_does") &&
    neStr (pyGet m "why_it_exists") && neStr (pyGet m "how_it_helps") &&
    neStr (pyGet m "limitations")
  | _ => false

/-- Schema of a normalized features section. -/
def featuresOK : JValue → Bool
  | .dict m =>
    dictKeys m == ["features"] &&
    (match pyGet m "features" with
     | .list l => l.all featureItemOK
     | _ => false)
  | _ => false

/-- Schema of a normalized feasibility section. -/
def feasibilityOK : JValue → Bool
  | .dict m =>
    dictKeys m == ["feasibility_level", "feasibility_explanation", "strengths", "risks", "why_this_matters"] &&
    isAllowedLevel (pyGet m "feasibility_level") &&
    neStr (pyGet m "feasibility_explanation") && isListB (pyGet m "strengths") &&
    isListB (pyGet m "risks") && neStr (pyGet m "why_this_matters")
  | _ => false

/-- Schema of a normalized system-flow step record (the step index keeps
whatever value the input carried, so it is not constrained here). -/
def stepItemOK : JValue → Bool
  | .dict m =>
    dictKeys m == ["step_number", "actor", "action", "explanation"] &&
    neStr (pyGet m "actor") && neStr (pyGet m "action") && neStr (pyGet m "explanation")
  | _ => false

/-- Schema of a normalized system-flow section. -/
def systemFlowOK : JValue → Bool
  | .dict m =>
    dictKeys m == ["flow_title", "steps", "summary"] &&
    neStr (pyGet m "flow_title") &&
    (match pyGet m "steps" with
     | .list l => l.all stepItemOK
     | _ => false) &&
    neStr (pyGet m "summary")
  | _ => false

/-- Schema of a normalized primary tech-stack record. -/
def primaryItemOK : JValue → Bool
  | .dict m =>
    dictKeys m == ["category", "technology", "justification", "skill_level"] &&
    neStr (pyGet m "category") && neStr (pyGet m "technology") &&
    neStr (pyGet m "justification") && neStr (pyGet m "skill_level")
  | _ => false

/-- Schema of a normalized backup tech-stack record. -/
def backupItemOK : JValue → Bool
  | .dict m =>
    dictKeys m == ["category", "technology", "why_backup"] &&
    neStr (pyGet m "category") && neStr (pyGet m "technology") && neStr (pyGet m "why_backup")
  | _ => false

/-- Schema of a normalized tech-stack section. -/
def techStackOK : JValue → Bool
  | .dict m =>
    dictKeys m == ["primary_stack", "backup_stack"] &&
    (match pyGet m "primary_stack" with
     | .list l => l.all primaryItemOK
     | _ => false) &&
    (match pyGet m "backup_stack" with
     | .list l => l.all backupItemOK
     | _ => false)
  | _ => false

/-- Schema of a normalized existing-solution record. -/
def solutionItemOK : JValue → Bool
  | .dict m =>
    dictKeys m == ["solution_name", "what_it_does", "limitations"] &&
    neStr (pyGet m "solution_name") && neStr (pyGet m "what_it_does") && neStr (pyGet m "limitations")
  | _ => false

/-- Schema of a normalized comparison section. -/
def comparisonOK : JValue → Bool
  | .dict m =>
    dictKeys m == ["existing_solutions", "unique_aspects", "why_this_project_is_still_valuable", "summary_insight"] &&
    (match pyGet m "existing_solutions" with
     | .list l => l.all solutionItemOK
     | _ => false) &&
    isListB (pyGet m "unique_aspects") &&
    isListB (pyGet m "why_this_project_is_still_valuable") &&
    neStr (pyGet m "summary_insight")
  | _ => false

/-- Schema of a normalized common viva question record. -/
def commonQOK : JValue → Bool
  | .dict m =>
    dictKeys m == ["question", "suggested_answer", "why_asked"] &&
    neStr (pyGet m "question") && neStr (pyGet m "suggested_answer") && neStr (pyGet m "why_asked")
  | _ => false

/-- Schema of a normalized hackathon question record. -/
def hackathonQOK : JValue → Bool
  | .dict m =>
    dictKeys m == ["question", "suggested_response", "key_points"] &&
    neStr (pyGet m "question") && neStr (pyGet m "suggested_response") &&
    isListB (pyGet m "key_points")
  | _ => false

/-- Schema of a normalized viva section. -/
def vivaOK : JValue → Bool
  | .dict m =>
    dictKeys m == ["project_overview_explanation", "problem_statement_explanation", "architecture_explanation", "unique_feature_explanation", "common_questions", "hackathon_questions"] &&
    neStr (pyGet m "project_overview_explanation") && neStr (pyGet m "problem_statement_explanation") &&
    neStr (pyGet m "architecture_explanation") && neStr (pyGet m "unique_feature_explanation") &&
    (match pyGet m "common_questions" with
     | .list l => l.all commonQOK
     | _ => false) &&
    (match pyGet m "hackathon_questions" with
     | .list l => l.all hackathonQOK
     | _ => false)
  | _ => false

/-- Schema of a normalized pitch section. -/
def pitchOK : JValue → Bool
  | .dict m =>
    dictKeys m == ["thirty_second_pitch", "one_minute_pitch", "key_points"] &&
    neStr (pyGet m "thirty_second_pitch") && neStr (pyGet m "one_minute_pitch") &&
    isListB (pyGet m "key_points")
  | _ => false

/-- Schema of a normalized diagrams section. -/
def diagramsOK : JValue → Bool
  | .dict m =>
    dictKeys m == ["user_flow_mermaid", "tech_stack_mermaid"] &&
    neStr (pyGet m "user_flow_mermaid") && neStr (pyGet m "tech_stack_mermaid")
  | _ => false

/-- The full normalized-blueprint schema: exactly the nine sections, each
satisfying its section schema. -/
def blueprintOK : JValue → Bool
  | .dict m =>
    dictKeys m == ["summary", "features", "feasibility", "system_flow", "tech_stack", "comparison", "viva", "pitch", "diagrams"] &&
    summaryOK (pyGet m "summary") && featuresOK (pyGet m "features") &&
    feasibilityOK (pyGet m "feasibility") && systemFlowOK (pyGet m "system_flow") &&
    techStackOK (pyGet m "tech_stack") && comparisonOK (pyGet m "comparison") &&
    vivaOK (pyGet m "viva") && pitchOK (pyGet m "pitch") && diagramsOK (pyGet m "diagrams")
  | _ => false

/-!
## Schema lemmas: every section normalizer meets its section schema
-/

/-- `_safe_string` never returns the empty string when its default is
non-empty. -/
theorem safe_string_ne (v : JValue) (d : String) (hd : d ≠ "") : safe_string v d ≠ "" := by
  cases v with
  | str s =>
    dsimp [safe_string]
    split
    · next h => exact h.2
    · exact hd
  | null => exact hd
  | bool b => exact hd
  | int n => exact hd
  | list l => exact hd
  | dict m => exact hd

/-- `neStr` holds of a `_safe_string` result with a non-empty default. -/
theorem neStr_safe (v : JValue) (d : String) (hd : d ≠ "") :
    neStr (.str (safe_string v d)) = true := by
  simp [neStr]
  exact safe_string_ne v d hd

/-- The summary normalizer meets the summary schema. -/
theorem summary_schema (d : JValue) : summaryOK (normalize_summary d) = true := by
  simp [normalize_summary, summaryOK, pyGet, dictLookup, dictKeys, isListB, neStr_safe]

/-- A normalized feature record meets the feature schema. -/
theorem featureItem_schema (m : List (String × JValue)) :
    featureItemOK (normalize_feature_item m) = true := by
  simp [normalize_feature_item, featureItemOK, pyGet, dictLookup, dictKeys, neStr_safe]

/-- Every element produced by the features loop meets the feature schema. -/
theorem features_items_mem (l : List JValue) :
    ∀ x ∈ normalize_feature_items l, featureItemOK x = true := by
  intro x hx
  simp only [normalize_feature_items, List.mem_filterMap] at hx
  obtain ⟨v, _, hfx⟩ := hx
  cases v with
  | dict m =>
    simp only [Option.some.injEq] at hfx
    subst hfx
    exact featureItem_schema m
  | null => exact Option.noConfusion hfx
  | bool b => exact Option.noConfusion hfx
  | int n => exact Option.noConfusion hfx
  | str s => exact Option.noConfusion hfx
  | list l2 => exact Option.noConfusion hfx

/-- The features normalizer meets the features schema. -/
theorem features_schema (d : JValue) : featuresOK (normalize_features d) = true := by
  simp only [normalize_features, featuresOK]
  simp [pyGet, dictLookup, dictKeys]
  split
  · decide
  · exact fun x hx => features_items_mem _ x hx

/-- The feasibility normalizer meets the feasibility schema. -/
theorem feasibility_schema (d : JValue) : feasibilityOK (normalize_feasibility d) = true := by
  simp [normalize_feasibility, feasibilityOK, pyGet, dictLookup, dictKeys, isListB, neStr_safe]
  split
  · next h => exact h
  · decide

/-- A normalized step record meets the step schema. -/
theorem stepItem_schema (i : Nat) (m : List (String × JValue)) :
    stepItemOK (normalize_step_item i m) = true := by
  simp [normalize_step_item, stepItemOK, pyGet, dictLookup, dictKeys, neStr_safe]

/-- Every element produced by the steps loop meets the step schema. -/
theorem step_items_mem (i : Nat) (l : List JValue) :
    ∀ x ∈ normalize_step_items i l, stepItemOK x = true := by
  induction l generalizing i with
  | nil => intro x hx; cases hx
  | cons v t ih =>
    intro x hx
    cases v with
    | dict m =>
      simp only [normalize_step_items, List.mem_cons] at hx
      rcases hx with h | h
      · subst h; exact stepItem_schema i m
      · exact ih (i + 1) x h
    | null => exact ih (i + 1) x hx
    | bool b => exact ih (i + 1) x hx
    | int n => exact ih (i + 1) x hx
    | str s => exact ih (i + 1) x hx
    | list l2 => exact ih (i + 1) x hx

/-- The system-flow normalizer meets the system-flow schema. -/
theorem system_flow_schema (d : JValue) : systemFlowOK (normalize_system_flow d) = true := by
  simp [normalize_system_flow, systemFlowOK, pyGet, dictLookup, dictKeys, neStr_safe]
  split
  · decide
  · exact fun x hx => step_items_mem 0 _ x hx

/-- A normalized primary tech-stack record meets its schema. -/
theorem primaryItem_schema (m : List (String × JValue)) :
    primaryItemOK (normalize_primary_item m) = true := by
  simp [normalize_primary_item, primaryItemOK, pyGet, dictLookup, dictKeys, neStr_safe]

/-- A normalized backup tech-stack record meets its schema. -/
theorem backupItem_schema (m : List (String × JValue)) :
    backupItemOK (normalize_backup_item m) = true := by
  simp [normalize_backup_item, backupItemOK, pyGet, dictLookup, dictKeys, neStr_safe]

/-- Every element produced by the primary-stack loop meets its schema. -/
theorem primary_items_mem (l : List JValue) :
    ∀ x ∈ normalize_primary_items l, primaryItemOK x = true := by
  intro x hx
  simp only [normalize_primary_items, List.mem_filterMap] at hx
  obtain ⟨v, _, hfx⟩ := hx
  cases v with
  | dict m =>
    simp only [Option.some.injEq] at hfx
    subst hfx
    exact primaryItem_schema m
  | null => exact Option.noConfusion hfx
  | bool b => exact Option.noConfusion hfx
  | int n => exact Option.noConfusion hfx
  | str s => exact Option.noConfusion hfx
  | list l2 => exact Option.noConfusion hfx

/-- Every element produced by the backup-stack loop meets its schema. -/
theorem backup_items_mem (l : List JValue) :
    ∀ x ∈ normalize_backup_items l, backupItemOK x = true := by
  intro x hx
  simp only [normalize_backup_items, List.mem_filterMap] at hx
  obtain ⟨v, _, hfx⟩ := hx
  cases v with
  | dict m =>
    simp only [Option.some.injEq] at hfx
    subst hfx
    exact backupItem_schema m
  | null => exact Option.noConfusion hfx
  | bool b => exact Option.noConfusion hfx
  | int n => exact Option.noConfusion hfx
  | str s => exact Option.noConfusion hfx
  | list l2 => exact Option.noConfusion hfx

/-- The tech-stack normalizer meets the tech-stack schema. -/
theorem tech_stack_schema (d : JValue) : techStackOK (normalize_tech_stack d) = true := by
  simp [normalize_tech_stack, techStackOK, pyGet, dictLookup, dictKeys]
  constructor
  · split
    · decide
    · exact fun x hx => primary_items_mem _ x hx
  · exact fun x hx => backup_items_mem _ x hx

/-- A normalized existing-solution record meets its schema. -/
theorem solutionItem_schema (m : List (String × JValue)) :
    solutionItemOK (normalize_solution_item m) = true := by
  simp [normalize_solution_item, solutionItemOK, pyGet, dictLookup, dictKeys, neStr_safe]

/-- Every element produced by the existing-solutions loop meets its schema. -/
theorem solution_items_mem (l : List JValue) :
    ∀ x ∈ normalize_solution_items l, solutionItemOK x = true := by
  intro x hx
  simp only [normalize_solution_items, List.mem_filterMap] at hx
  obtain ⟨v, _, hfx⟩ := hx
  cases v with
  | dict m =>
    simp only [Option.some.injEq] at hfx
    subst hfx
    exact solutionItem_schema m
  | null => exact Option.noConfusion hfx
  | bool b => exact Option.noConfusion hfx
  | int n => exact Option.noConfusion hfx
  | str s => exact Option.noConfusion hfx
  | list l2 => exact Option.noConfusion hfx

/-- The comparison normalizer meets the comparison schema. -/
theorem comparison_schema (d : JValue) : comparisonOK (normalize_comparison d) = true := by
  simp [normalize_comparison, comparisonOK, pyGet, dictLookup, dictKeys, isListB, neStr_safe]
  exact fun x hx => solution_items_mem _ x hx

/-- A normalized common viva question meets its schema. -/
theorem commonQ_schema (m : List (String × JValue)) :
    commonQOK (normalize_common_q_item m) = true := by
  simp [normalize_common_q_item, commonQOK, pyGet, dictLookup, dictKeys, neStr_safe]

/-- A normalized hackathon question meets its schema. -/
theorem hackathonQ_schema (m : List (String × JValue)) :
    hackathonQOK (normalize_hackathon_q_item m) = true := by
  simp [normalize_hackathon_q_item, hackathonQOK, pyGet, dictLookup, dictKeys, isListB, neStr_safe]

/-- Every element produced by the common-questions loop meets its schema. -/
theorem commonQ_items_mem (l : List JValue) :
    ∀ x ∈ normalize_common_q_items l, commonQOK x = true := by
  intro x hx
  simp only [normalize_common_q_items, List.mem_filterMap] at hx
  obtain ⟨v, _, hfx⟩ := hx
  cases v with
  | dict m =>
    simp only [Option.some.injEq] at hfx
    subst hfx
    exact commonQ_schema m
  | null => exact Option.noConfusion hfx
  | bool b => exact Option.noConfusion hfx
  | int n => exact Option.noConfusion hfx
  | str s => exact Option.noConfusion hfx
  | list l2 => exact Option.noConfusion hfx

/-- Every element produced by the hackathon-questions loop meets its schema. -/
theorem hackathonQ_items_mem (l : List JValue) :
    ∀ x ∈ normalize_hackathon_q_items l, hackathonQOK x = true := by
  intro x hx
  simp only [normalize_hackathon_q_items, List.mem_filterMap] at hx
  obtain ⟨v, _, hfx⟩ := hx
  cases v with
  | dict m =>
    simp only [Option.some.injEq] at hfx
    subst hfx
    exact hackathonQ_schema m
  | null => exact Option.noConfusion hfx
  | bool b => exact Option.noConfusion hfx
  | int n => exact Option.noConfusion hfx
  | str s => exact Option.noConfusion hfx
  | list l2 => exact Option.noConfusion hfx

/-- The viva normalizer meets the viva schema. -/
theorem viva_schema (d : JValue) : vivaOK (normalize_viva d) = true := by
  simp [normalize_viva, vivaOK, pyGet, dictLookup, dictKeys, neStr_safe]
  constructor
  · split
    · decide
    · exact fun x hx => commonQ_items_mem _ x hx
  · split
    · decide
    · exact fun x hx => hackathonQ_items_mem _ x hx

/-- The pitch normalizer meets the pitch schema. -/
theorem pitch_schema (d : JValue) : pitchOK (normalize_pitch d) = true := by
  simp [normalize_pitch, pitchOK, pyGet, dictLookup, dictKeys, isListB, neStr_safe]

/-- The diagrams normalizer meets the diagrams schema. -/
theorem diagrams_schema (d : JValue) : diagramsOK (normalize_diagrams d) = true := by
  simp [normalize_diagrams, diagramsOK, pyGet, dictLookup, dictKeys, neStr_safe,
    default_user_flow, default_tech_stack_flow]

/-!
## Claim theorems
-/

/-- Claim C1: `normalize_blueprint` is total — being a Lean function it can
raise nothing — and for every input (including `None`, `{}`, a non-dict
summary, and a nonsense feasibility level) it returns a record with exactly
the nine sections, every required scalar field a non-empty string, and
`feasibility_level` in `{High, Medium, Low}`; a missing level or one outside
the legal set is coerced to `"Medium"` (shown both for `_normalize_feasibility`
in general and on the concrete `"Nonsense"` input). -/
theorem claim_C1_normalizer_totality :
    (∀ x, blueprintOK (normalize_blueprint x) = true) ∧
    (∀ m, dictLookup m "feasibility_level" = none →
      jGet (normalize_feasibility (.dict m)) "feasibility_level" = .str "Medium") ∧
    (∀ m v, dictLookup m "feasibility_level" = some v → isAllowedLevel v = false →
      jGet (normalize_feasibility (.dict m)) "feasibility_level" = .str "Medium") ∧
    jGet (jGet (normalize_blueprint (.dict [("feasibility", .dict [("feasibility_level", .str "Nonsense")])])) "feasibility") "feasibility_level" = .str "Medium" := by
  refine ⟨?_, ?_, ?_, ?_⟩
  · intro x
    unfold normalize_blueprint
    split
    · decide
    · simp [blueprintOK, pyGet, dictLookup, dictKeys, summary_schema, features_schema,
        feasibility_schema, system_flow_schema, tech_stack_schema, comparison_schema,
        viva_schema, pitch_schema, diagrams_schema]
  · intro m h
    simp [normalize_feasibility, jGet, asDict, pyGet, pyGetD, dictLookup, h]
  · intro m v h hv
    simp [normalize_feasibility, jGet, asDict, pyGet, pyGetD, dictLookup, h, hv]
  · rfl

/-- Witness for C1: the coercion conjuncts applied at a missing level and at
the literal level `"Nonsense"`. -/
theorem claim_C1_normalizer_totality_witness :
    jGet (normalize_feasibility (.dict [])) "feasibility_level" = .str "Medium" ∧
    jGet (normalize_feasibility (.dict [("feasibility_level", .str "Nonsense")])) "feasibility_level" = .str "Medium" :=
  ⟨claim_C1_normalizer_totality.2.1 [] rfl,
   claim_C1_normalizer_totality.2.2.1 [("feasibility_level", .str "Nonsense")] (.str "Nonsense") rfl rfl⟩

/-- Claim C10: every non-dict input (None, a bare string, a list, a number)
normalizes to exactly `get_fallback_blueprint`, and the fallback is itself
deep-equal to `normalize_blueprint {}` (the empty dict is falsy, so it takes
the same branch). -/
theorem claim_C10_fallback_identity :
    (∀ x, isDictB x = false → normalize_blueprint x = get_fallback_blueprint) ∧
    normalize_blueprint (.dict []) = get_fallback_blueprint := by
  constructor
  · intro x h
    unfold normalize_blueprint
    split
    · rfl
    · next hc =>
      exfalso
      apply hc
      simp [h]
  · rfl

/-- Witness for C10: the non-dict conjunct applied at `None`. -/
theorem claim_C10_fallback_identity_witness :
    normalize_blueprint .null = get_fallback_blueprint :=
  claim_C10_fallback_identity.1 .null rfl

/-- Claim C9: `map_to_frontend_format (normalize_blueprint {})` has a
`techStack` equal to the default primary stack — a list of (at least) 3
default entries — and a `userFlowMermaid` equal to the non-empty default
flow diagram, which starts with `"flowchart"`. -/
theorem claim_C9_frontend_defaults :
    jGet (map_to_frontend_format (normalize_blueprint (.dict []))) "techStack" = .list default_primary_stack ∧
    3 ≤ default_primary_stack.length ∧
    jGet (map_to_frontend_format (normalize_blueprint (.dict []))) "userFlowMermaid" = .str default_user_flow ∧
    default_user_flow ≠ "" ∧
    "flowchart".data.isPrefixOf default_user_flow.data = true := by
  refine ⟨rfl, by decide, rfl, by decide, by decide⟩

/-- Counterexample to claim C7: a step whose `step_number` is the non-numeric
string `"NaN"` keeps it — the code only defaults a *missing* step number, so
the first step's index is `"NaN"`, not the position `1` the claim requires. -/
theorem claim_C7_counterexample :
    jGet ((asList (jGet (jGet (normalize_blueprint (.dict [("system_flow", .dict [("steps", .list [.dict [("step_number", .str "NaN")]])])])) "system_flow") "steps")).headD .null) "step_number" = .str "NaN" ∧
    JValue.str "NaN" ≠ .int 1 :=
  ⟨rfl, fun h => JValue.noConfusion h⟩

/-- Claim C7 as amended: in a normalized system-flow step, a *present*
`step_number` (numeric or not) is kept unchanged, and only a *missing* one
is defaulted to the element's 1-based enumeration position. -/
theorem claim_C7_step_number_amended :
    (∀ (i : Nat) (m : List (String × JValue)) (v : JValue), dictLookup m "step_number" = some v →
      jGet (normalize_step_item i m) "step_number" = v) ∧
    (∀ (i : Nat) (m : List (String × JValue)), dictLookup m "step_number" = none →
      jGet (normalize_step_item i m) "step_number" = .int (i + 1)) := by
  constructor
  · intro i m v h
    simp [normalize_step_item, jGet, asDict, pyGet, dictLookup, h]
  · intro i m h
    simp [normalize_step_item, jGet, asDict, pyGet, dictLookup, h]

/-- Witness for the amended C7: a present (non-numeric) step number is kept;
a missing one at 0-based index 4 becomes 5. -/
theorem claim_C7_step_number_amended_witness :
    jGet (normalize_step_item 0 [("step_number", .str "x")]) "step_number" = .str "x" ∧
    jGet (normalize_step_item 4 []) "step_number" = .int 5 :=
  ⟨claim_C7_step_number_amended.1 0 [("step_number", .str "x")] (.str "x") rfl,
   claim_C7_step_number_amended.2 4 [] rfl⟩

/-- Counterexample to claim C8: `_normalize_comparison` has no synthetic
default for `existing_solutions`, so `normalize_blueprint {}` yields an
*empty* `existing_solutions` list, contradicting the claimed non-emptiness. -/
theorem claim_C8_counterexample :
    jGet (jGet (normalize_blueprint (.dict [])) "comparison") "existing_solutions" = .list [] := rfl

/-- Claim C8 as amended: the synthetic-default guarantee holds for features,
system-flow steps, primary tech-stack entries, and both viva question lists
(always non-empty, for every input), but not for comparison solutions:
`normalize_blueprint {}` leaves `existing_solutions` empty. -/
theorem claim_C8_default_elements_amended :
    (∀ d, 0 < (asList (jGet (normalize_features d) "features")).length) ∧
    (∀ d, 0 < (asList (jGet (normalize_system_flow d) "steps")).length) ∧
    (∀ d, 0 < (asList (jGet (normalize_tech_stack d) "primary_stack")).length) ∧
    (∀ d, 0 < (asList (jGet (normalize_viva d) "common_questions")).length) ∧
    (∀ d, 0 < (asList (jGet (normalize_viva d) "hackathon_questions")).length) ∧
    jGet (jGet (normalize_blueprint (.dict [])) "comparison") "existing_solutions" = .list [] := by
  refine ⟨?_, ?_, ?_, ?_, ?_, rfl⟩
  · intro d
    simp [normalize_features, jGet, asDict, pyGet, dictLookup, asList]
    split
    · decide
    · next h => simpa [List.length_pos, List.isEmpty_iff] using h
  · intro d
    simp [normalize_system_flow, jGet, asDict, pyGet, dictLookup, asList]
    split
    · decide
    · next h => simpa [List.length_pos, List.isEmpty_iff] using h
  · intro d
    simp [normalize_tech_stack, jGet, asDict, pyGet, dictLookup, asList]
    split
    · decide
    · next h => simpa [List.length_pos, List.isEmpty_iff] using h
  · intro d
    simp [normalize_viva, jGet, asDict, pyGet, dictLookup, asList]
    split
    · decide
    · next h => simpa [List.length_pos, List.isEmpty_iff] using h
  · intro d
    simp [normalize_viva, jGet, asDict, pyGet, dictLookup, asList]
    split
    · decide
    · next h => simpa [List.length_pos, List.isEmpty_iff] using h

/-!
## Idempotence machinery

`str.strip` is idempotent, `_safe_string` outputs are strip-stable, and each
section normalizer is (conditionally) idempotent.
-/

/-- The head of a `dropWhile` result fails the predicate. -/
theorem head?_dropWhile_false (p : Char → Bool) (l : List Char) (c : Char)
    (h : (l.dropWhile p).head? = some c) : p c = false := by
  have hm := List.head?_dropWhile_not p l
  rw [h] at hm
  exact hm

/-- A list whose head fails the predicate is unchanged by `dropWhile`. -/
theorem dropWhile_eq_self_of_head (p : Char → Bool) (l : List Char)
    (h : ∀ c, l.head? = some c → p c = false) : l.dropWhile p = l := by
  cases l with
  | nil => rfl
  | cons a t =>
    rw [List.dropWhile_cons_of_neg]
    simp [h a rfl]

/-- `dropWhile` keeps the last element when its result is non-empty. -/
theorem getLast?_dropWhile_of_ne_nil (p : Char → Bool) (l : List Char)
    (h : l.dropWhile p ≠ []) : (l.dropWhile p).getLast? = l.getLast? := by
  have hsuf := List.dropWhile_suffix (l := l) p
  rw [List.getLast?_eq_getLast _ h, List.getLast?_eq_getLast _ (hsuf.ne_nil h),
    hsuf.getLast h]

/-- The first character of a stripped list is not whitespace. -/
theorem pyStripL_head_not_ws (l : List Char) :
    ∀ c, (pyStripL l).head? = some c → isWS c = false := by
  intro c hc
  unfold pyStripL at hc
  rw [List.head?_reverse] at hc
  have hbne : (l.dropWhile isWS).reverse.dropWhile isWS ≠ [] := by
    intro hnil
    rw [hnil] at hc
    exact Option.noConfusion hc
  rw [getLast?_dropWhile_of_ne_nil isWS _ hbne, List.getLast?_reverse] at hc
  exact head?_dropWhile_false isWS _ c hc

/-- The last character of a stripped list is not whitespace. -/
theorem pyStripL_last_not_ws (l : List Char) :
    ∀ c, (pyStripL l).reverse.head? = some c → isWS c = false := by
  intro c hc
  unfold pyStripL at hc
  rw [List.reverse_reverse] at hc
  exact head?_dropWhile_false isWS _ c hc

/-- Stripping is idempotent on character lists. -/
theorem pyStripL_idem (l : List Char) : pyStripL (pyStripL l) = pyStripL l := by
  conv_lhs => rw [pyStripL]
  rw [dropWhile_eq_self_of_head isWS _ (pyStripL_head_not_ws l),
    dropWhile_eq_self_of_head isWS _ (pyStripL_last_not_ws l),
    List.reverse_reverse]

/-- Python `strip` is idempotent. -/
theorem pyStrip_idem (s : String) : pyStrip (pyStrip s) = pyStrip s :=
  congrArg String.mk (pyStripL_idem s.data)

/-- A string is *stable* when it is non-empty and unchanged by `strip` —
exactly the strings `_safe_string` can produce from a stable default. -/
def stableStr (s : String) : Prop := s ≠ "" ∧ pyStrip s = s

instance (s : String) : Decidable (stableStr s) := by
  unfold stableStr
  infer_instance

/-- `_safe_string` with a stable default yields a stable string. -/
theorem safe_string_stable (v : JValue) (d : String) (hd : stableStr d) :
    stableStr (safe_string v d) := by
  cases v with
  | str s =>
    dsimp [safe_string]
    split
    · next h => exact ⟨h.2, pyStrip_idem s⟩
    · exact hd
  | null => exact hd
  | bool b => exact hd
  | int n => exact hd
  | list l => exact hd
  | dict m => exact hd

/-- `_safe_string` fixes stable strings. -/
theorem safe_string_fix (s : String) (d : String) (hs : stableStr s) :
    safe_string (.str s) d = s := by
  dsimp [safe_string]
  rw [if_pos ⟨hs.1, by rw [hs.2]; exact hs.1⟩]
  exact hs.2

/-- Re-normalizing a `_safe_string` result (with the same stable default)
changes nothing. -/
theorem ss_idem (v : JValue) (d : String) (hd : stableStr d) :
    safe_string (.str (safe_string v d)) d = safe_string v d :=
  safe_string_fix _ _ (safe_string_stable v d hd)

/-- Reading a dict value back out of the `dict` constructor. -/
theorem asDict_dict (m : List (String × JValue)) : asDict (.dict m) = m := rfl

/-- Reading a list value back out of the `list` constructor. -/
theorem asList_list (l : List JValue) : asList (.list l) = l := rfl

/-- Lookup at the head key. -/
theorem dictLookup_cons_self (k : String) (v : JValue) (t : List (String × JValue)) :
    dictLookup ((k, v) :: t) k = some v := by
  simp [dictLookup]

/-- Lookup skips a non-matching head key. -/
theorem dictLookup_cons_ne (k1 k : String) (v : JValue) (t : List (String × JValue))
    (h : k1 ≠ k) : dictLookup ((k1, v) :: t) k = dictLookup t k := by
  simp [dictLookup, h]

/-- `get` at the head key. -/
theorem pyGet_cons_self (k : String) (v : JValue) (t : List (String × JValue)) :
    pyGet ((k, v) :: t) k = v := by
  simp [pyGet, dictLookup]

/-- `get` skips a non-matching head key. -/
theorem pyGet_cons_ne (k1 k : String) (v : JValue) (t : List (String × JValue))
    (h : k1 ≠ k) : pyGet ((k1, v) :: t) k = pyGet t k := by
  simp [pyGet, dictLookup, h]

/-- `get` on the empty dict. -/
theorem pyGet_nil (k : String) : pyGet [] k = .null := rfl

/-- `get` with default at the head key. -/
theorem pyGetD_cons_self (k : String) (v d : JValue) (t : List (String × JValue)) :
    pyGetD ((k, v) :: t) k d = v := by
  simp [pyGetD, dictLookup]

/-- `get` with default skips a non-matching head key. -/
theorem pyGetD_cons_ne (k1 k : String) (v d : JValue) (t : List (String × JValue))
    (h : k1 ≠ k) : pyGetD ((k1, v) :: t) k d = pyGetD t k d := by
  simp [pyGetD, dictLookup, h]

/-- `get` with default on the empty dict. -/
theorem pyGetD_nil (k : String) (d : JValue) : pyGetD [] k d = d := rfl

/-- A `filterMap` whose outputs are fixed points of its own step function is idempotent. -/
theorem filterMap_idem_of (f : JValue → Option JValue)
    (hf : ∀ v x, f v = some x → f x = some x) :
    ∀ l : List JValue, (l.filterMap f).filterMap f = l.filterMap f := by
  intro l
  induction l with
  | nil => rfl
  | cons v t ih =>
    simp only [List.filterMap_cons]
    cases hfv : f v with
    | none => simp only [hfv]; exact ih
    | some x => simp only [hfv, List.filterMap_cons, hf v x hfv, ih]

/-- Re-normalizing a normalized feature record changes nothing. -/
theorem feature_item_fix (m : List (String × JValue)) :
    normalize_feature_item (asDict (normalize_feature_item m)) = normalize_feature_item m := by
  have h1 := ss_idem (pyGet m "feature_name") "Feature" (by decide)
  have h2 := ss_idem (pyGet m "what_it_does") "Provides functionality to users" (by decide)
  have h3 := ss_idem (pyGet m "why_it_exists") "Addresses a user need" (by decide)
  have h4 := ss_idem (pyGet m "how_it_helps") "Improves user experience" (by decide)
  have h5 := ss_idem (pyGet m "limitations") "None specified" (by decide)
  simp [normalize_feature_item, asDict_dict, pyGet_cons_self, pyGet_cons_ne,
    h1, h2, h3, h4, h5]

/-- The features loop is idempotent. -/
theorem feature_items_idem (l : List JValue) :
    normalize_feature_items (normalize_feature_items l) = normalize_feature_items l := by
  unfold normalize_feature_items
  apply filterMap_idem_of
  intro v x hfx
  cases v with
  | dict m =>
    simp only [Option.some.injEq] at hfx
    subst hfx
    have hfix := feature_item_fix m
    cases hshape : normalize_feature_item m with
    | dict L =>
      rw [hshape] at hfix
      simp only [asDict] at hfix
      exact congrArg some hfix
    | null => exact absurd hshape (by simp [normalize_feature_item])
    | bool b => exact absurd hshape (by simp [normalize_feature_item])
    | int n => exact absurd hshape (by simp [normalize_feature_item])
    | str s => exact absurd hshape (by simp [normalize_feature_item])
    | list l2 => exact absurd hshape (by simp [normalize_feature_item])
  | null => exact Option.noConfusion hfx
  | bool b => exact Option.noConfusion hfx
  | int n => exact Option.noConfusion hfx
  | str s => exact Option.noConfusion hfx
  | list l2 => exact Option.noConfusion hfx

/-- The summary normalizer is idempotent. -/
theorem normalize_summary_idem (d : JValue) :
    normalize_summary (normalize_summary d) = normalize_summary d := by
  have h1 := ss_idem (pyGet (asDict d) "problem_statement") "Not provided by AI" (by decide)
  have h2 := ss_idem (pyGet (asDict d) "scope") "Defined by project requirements" (by decide)
  have h3 := ss_idem (pyGet (asDict d) "what_this_means") "This section explains your project's purpose" (by decide)
  have h4 := ss_idem (pyGet (asDict d) "why_this_matters") "Understanding this helps you explain your project clearly" (by decide)
  simp [normalize_summary, asDict_dict, pyGet_cons_self, pyGet_cons_ne, safe_list,
    h1, h2, h3, h4]

/-- The features normalizer is idempotent. -/
theorem normalize_features_idem (d : JValue) :
    normalize_features (normalize_features d) = normalize_features d := by
  have hitems := feature_items_idem (asList (pyGetD (asDict d) "features" (.list [])))
  have hdef : normalize_feature_items default_features = default_features := rfl
  have hdne : default_features.isEmpty = false := rfl
  cases hc : (normalize_feature_items (asList (pyGetD (asDict d) "features" (.list [])))).isEmpty with
  | true => simp [normalize_features, asDict_dict, asList_list, pyGetD_cons_self, hc, hdef, hdne]
  | false => simp [normalize_features, asDict_dict, asList_list, pyGetD_cons_self, hc, hitems]

/-- The feasibility normalizer is idempotent. -/
theorem normalize_feasibility_idem (d : JValue) :
    normalize_feasibility (normalize_feasibility d) = normalize_feasibility d := by
  have h1 := ss_idem (pyGet (asDict d) "feasibility_explanation") "This project is achievable for a college student" (by decide)
  have h2 := ss_idem (pyGet (asDict d) "why_this_matters") "Knowing feasibility helps you plan realistically" (by decide)
  have hm : isAllowedLevel (.str "Medium") = true := rfl
  cases hc : isAllowedLevel (pyGetD (asDict d) "feasibility_level" (.str "Medium")) with
  | true =>
    simp [normalize_feasibility, asDict_dict, pyGet_cons_self, pyGet_cons_ne,
      pyGetD_cons_self, pyGetD_cons_ne, safe_list, hc, h1, h2]
  | false =>
    simp [normalize_feasibility, asDict_dict, pyGet_cons_self, pyGet_cons_ne,
      pyGetD_cons_self, pyGetD_cons_ne, safe_list, hc, hm, h1, h2]

/-- The pitch normalizer is idempotent. -/
theorem normalize_pitch_idem (d : JValue) :
    normalize_pitch (normalize_pitch d) = normalize_pitch d := by
  have h1 := ss_idem (pyGet (asDict d) "thirty_second_pitch") "This project solves a real problem by providing an efficient digital solution. It saves time, reduces errors, and improves the user experience." (by decide)
  have h2 := ss_idem (pyGet (asDict d) "one_minute_pitch") "Every day, users face challenges with manual processes. This project automates those processes, providing a faster, more reliable solution. Built with modern technologies, it's designed to be user-friendly and scalable. The system is ideal for educational or organizational settings where efficiency matters." (by decide)
  simp [normalize_pitch, asDict_dict, pyGet_cons_self, pyGet_cons_ne, safe_list, h1, h2]

/-- The diagrams normalizer is idempotent. -/
theorem normalize_diagrams_idem (d : JValue) :
    normalize_diagrams (normalize_diagrams d) = normalize_diagrams d := by
  have h1 := ss_idem (pyGet (asDict d) "user_flow_mermaid") default_user_flow (by decide)
  have h2 := ss_idem (pyGet (asDict d) "tech_stack_mermaid") default_tech_stack_flow (by decide)
  simp [normalize_diagrams, asDict_dict, pyGet_cons_self, pyGet_cons_ne, h1, h2]

/-- Re-normalizing a normalized existing-solution record changes nothing. -/
theorem solution_item_fix (m : List (String × JValue)) :
    normalize_solution_item (asDict (normalize_solution_item m)) = normalize_solution_item m := by
  have h1 := ss_idem (pyGet m "solution_name") "Existing Solution" (by decide)
  have h2 := ss_idem (pyGet m "what_it_does") "Provides similar functionality" (by decide)
  have h3 := ss_idem (pyGet m "limitations") "May not fit specific needs" (by decide)
  simp [normalize_solution_item, asDict_dict, pyGet_cons_self, pyGet_cons_ne, h1, h2, h3]

/-- The existing-solutions loop is idempotent. -/
theorem solution_items_idem (l : List JValue) :
    normalize_solution_items (normalize_solution_items l) = normalize_solution_items l := by
  unfold normalize_solution_items
  apply filterMap_idem_of
  intro v x hfx
  cases v with
  | dict m =>
    simp only [Option.some.injEq] at hfx
    subst hfx
    have hfix := solution_item_fix m
    cases hshape : normalize_solution_item m with
    | dict L =>
      rw [hshape] at hfix
      simp only [asDict] at hfix
      exact congrArg some hfix
    | null => exact absurd hshape (by simp [normalize_solution_item])
    | bool b => exact absurd hshape (by simp [normalize_solution_item])
    | int n => exact absurd hshape (by simp [normalize_solution_item])
    | str s => exact absurd hshape (by simp [normalize_solution_item])
    | list l2 => exact absurd hshape (by simp [normalize_solution_item])
  | null => exact Option.noConfusion hfx
  | bool b => exact Option.noConfusion hfx
  | int n => exact Option.noConfusion hfx
  | str s => exact Option.noConfusion hfx
  | list l2 => exact Option.noConfusion hfx

/-- `_safe_list` keeps a list unchanged. -/
theorem safe_list_list (l d : List JValue) : safe_list (.list l) d = l := rfl

/-- The why-valuable `or`-chain keeps a non-empty list on re-normalization. -/
theorem pyOr_list_getD (W dflt : List JValue) (hW : W ≠ []) :
    safe_list (pyOr (.list W) .null) dflt = W := by
  simp [safe_list, pyOr, pyTruthy, List.isEmpty_iff, hW]

/-- The comparison normalizer is idempotent whenever the why-valuable list it produced is non-empty (the one field whose `or`-alias read can change on a second pass). -/
theorem normalize_comparison_idem (d : JValue)
    (hw : safe_list (pyOr (pyGet (asDict d) "why_this_project_is_still_valuable") (pyGet (asDict d) "why_still_valuable")) [.str "Learning experience", .str "Tailored to specific requirements"] ≠ []) :
    normalize_comparison (normalize_comparison d) = normalize_comparison d := by
  have h1 := ss_idem (pyGet (asDict d) "summary_insight") "Even though similar systems exist, this project provides valuable learning and customization opportunities." (by decide)
  have hsol := solution_items_idem (asList (pyGetD (asDict d) "existing_solutions" (.list [])))
  simp only [normalize_comparison, asDict_dict, asList_list, pyGet_cons_self, pyGet_cons_ne,
    pyGetD_cons_self, pyGetD_cons_ne, pyGet_nil, ne_eq, String.reduceEq, not_false_eq_true]
  simp [hsol, safe_list_list, h1, pyOr_list_getD _ _ hw]

/-- Re-normalizing a normalized step record changes nothing, at any index: the `step_number` key is present, so the positional default is unused. -/
theorem step_item_fix (i j : Nat) (m : List (String × JValue)) :
    normalize_step_item j (asDict (normalize_step_item i m)) = normalize_step_item i m := by
  have h1 := ss_idem (pyGet m "actor") "User" (by decide)
  have h2 := ss_idem (pyGet m "action") "Performs action" (by decide)
  have h3 := ss_idem (pyGet m "explanation") "Part of the workflow" (by decide)
  simp [normalize_step_item, asDict_dict, pyGet_cons_self, pyGet_cons_ne,
    dictLookup_cons_self, dictLookup_cons_ne, h1, h2, h3]

/-- The steps loop is idempotent, for any pair of start indices. -/
theorem step_items_idem (i j : Nat) (l : List JValue) :
    normalize_step_items j (normalize_step_items i l) = normalize_step_items i l := by
  induction l generalizing i j with
  | nil => rfl
  | cons v t ih =>
    cases v with
    | dict m =>
      have hfix := step_item_fix i j m
      cases hshape : normalize_step_item i m with
      | dict L =>
        rw [hshape] at hfix
        simp only [asDict] at hfix
        simp only [normalize_step_items, hshape]
        rw [hfix, ih (i + 1) (j + 1)]
      | null => exact absurd hshape (by simp [normalize_step_item])
      | bool b => exact absurd hshape (by simp [normalize_step_item])
      | int n => exact absurd hshape (by simp [normalize_step_item])
      | str s => exact absurd hshape (by simp [normalize_step_item])
      | list l2 => exact absurd hshape (by simp [normalize_step_item])
    | null => simp only [normalize_step_items]; exact ih (i + 1) j
    | bool b => simp only [normalize_step_items]; exact ih (i + 1) j
    | int n => simp only [normalize_step_items]; exact ih (i + 1) j
    | str s => simp only [normalize_step_items]; exact ih (i + 1) j
    | list l2 => simp only [normalize_step_items]; exact ih (i + 1) j

/-- The system-flow normalizer is idempotent. -/
theorem normalize_system_flow_idem (d : JValue) :
    normalize_system_flow (normalize_system_flow d) = normalize_system_flow d := by
  have h1 := ss_idem (pyGet (asDict d) "flow_title") "System Flow" (by decide)
  have h2 := ss_idem (pyGet (asDict d) "summary") "This flow shows how users interact with the system" (by decide)
  have hitems := step_items_idem 0 0 (asList (pyGetD (asDict d) "steps" (.list [])))
  have hdef : normalize_step_items 0 default_steps = default_steps := rfl
  have hdne : default_steps.isEmpty = false := rfl
  cases hc : (normalize_step_items 0 (asList (pyGetD (asDict d) "steps" (.list [])))).isEmpty with
  | true =>
    simp [normalize_system_flow, asDict_dict, asList_list, pyGet_cons_self, pyGet_cons_ne,
      pyGetD_cons_self, pyGetD_cons_ne, hc, hdef, hdne, h1, h2]
  | false =>
    simp [normalize_system_flow, asDict_dict, asList_list, pyGet_cons_self, pyGet_cons_ne,
      pyGetD_cons_self, pyGetD_cons_ne, hc, hitems, h1, h2]

/-- Re-normalizing a normalized primary tech-stack record changes nothing. -/
theorem primary_item_fix (m : List (String × JValue)) :
    normalize_primary_item (asDict (normalize_primary_item m)) = normalize_primary_item m := by
  have h1 := ss_idem (pyGet m "category") "General" (by decide)
  have h2 := ss_idem (pyGet m "technology") "Technology" (by decide)
  have h3 := ss_idem (pyGet m "justification") "Suitable for this project" (by decide)
  have h4 := ss_idem (pyGet m "skill_level") "Beginner-friendly" (by decide)
  simp [normalize_primary_item, asDict_dict, pyGet_cons_self, pyGet_cons_ne, h1, h2, h3, h4]

/-- Re-normalizing a normalized backup tech-stack record changes nothing. -/
theorem backup_item_fix (m : List (String × JValue)) :
    normalize_backup_item (asDict (normalize_backup_item m)) = normalize_backup_item m := by
  have h1 := ss_idem (pyGet m "category") "General" (by decide)
  have h2 := ss_idem (pyGet m "technology") "Alternative" (by decide)
  have h3 := ss_idem (pyGet m "why_backup") "Alternative option if needed" (by decide)
  simp [normalize_backup_item, asDict_dict, pyGet_cons_self, pyGet_cons_ne, h1, h2, h3]

/-- The primary-stack loop is idempotent. -/
theorem primary_items_idem (l : List JValue) :
    normalize_primary_items (normalize_primary_items l) = normalize_primary_items l := by
  unfold normalize_primary_items
  apply filterMap_idem_of
  intro v x hfx
  cases v with
  | dict m =>
    simp only [Option.some.injEq] at hfx
    subst hfx
    have hfix := primary_item_fix m
    cases hshape : normalize_primary_item m with
    | dict L =>
      rw [hshape] at hfix
      simp only [asDict] at hfix
      exact congrArg some hfix
    | null => exact absurd hshape (by simp [normalize_primary_item])
    | bool b => exact absurd hshape (by simp [normalize_primary_item])
    | int n => exact absurd hshape (by simp [normalize_primary_item])
    | str s => exact absurd hshape (by simp [normalize_primary_item])
    | list l2 => exact absurd hshape (by simp [normalize_primary_item])
  | null => exact Option.noConfusion hfx
  | bool b => exact Option.noConfusion hfx
  | int n => exact Option.noConfusion hfx
  | str s => exact Option.noConfusion hfx
  | list l2 => exact Option.noConfusion hfx

/-- The backup-stack loop is idempotent. -/
theorem backup_items_idem (l : List JValue) :
    normalize_backup_items (normalize_backup_items l) = normalize_backup_items l := by
  unfold normalize_backup_items
  apply filterMap_idem_of
  intro v x hfx
  cases v with
  | dict m =>
    simp only [Option.some.injEq] at hfx
    subst hfx
    have hfix := backup_item_fix m
    cases hshape : normalize_backup_item m with
    | dict L =>
      rw [hshape] at hfix
      simp only [asDict] at hfix
      exact congrArg some hfix
    | null => exact absurd hshape (by simp [normalize_backup_item])
    | bool b => exact absurd hshape (by simp [normalize_backup_item])
    | int n => exact absurd hshape (by simp [normalize_backup_item])
    | str s => exact absurd hshape (by simp [normalize_backup_item])
    | list l2 => exact absurd hshape (by simp [normalize_backup_item])
  | null => exact Option.noConfusion hfx
  | bool b => exact Option.noConfusion hfx
  | int n => exact Option.noConfusion hfx
  | str s => exact Option.noConfusion hfx
  | list l2 => exact Option.noConfusion hfx

/-- The tech-stack normalizer is idempotent. -/
theorem normalize_tech_stack_idem (d : JValue) :
    normalize_tech_stack (normalize_tech_stack d) = normalize_tech_stack d := by
  have hp := primary_items_idem (asList (pyGetD (asDict d) "primary_stack" (.list [])))
  have hb := backup_items_idem (asList (pyGetD (asDict d) "backup_stack" (.list [])))
  have hdef : normalize_primary_items default_primary_stack = default_primary_stack := rfl
  have hdne : default_primary_stack.isEmpty = false := rfl
  cases hc : (normalize_primary_items (asList (pyGetD (asDict d) "primary_stack" (.list [])))).isEmpty with
  | true =>
    simp [normalize_tech_stack, asDict_dict, asList_list, pyGetD_cons_self, pyGetD_cons_ne,
      hc, hdef, hdne, hb]
  | false =>
    simp [normalize_tech_stack, asDict_dict, asList_list, pyGetD_cons_self, pyGetD_cons_ne,
      hc, hp, hb]

/-- Re-normalizing a normalized common viva question changes nothing. -/
theorem commonQ_item_fix (m : List (String × JValue)) :
    normalize_common_q_item (asDict (normalize_common_q_item m)) = normalize_common_q_item m := by
  have h1 := ss_idem (pyGet m "question") "Question" (by decide)
  have h2 := ss_idem (pyGet m "suggested_answer") "Provide a clear, concise answer" (by decide)
  have h3 := ss_idem (pyGet m "why_asked") "To assess your understanding" (by decide)
  simp [normalize_common_q_item, asDict_dict, pyGet_cons_self, pyGet_cons_ne, h1, h2, h3]

/-- Re-normalizing a normalized hackathon question changes nothing. -/
theorem hackathonQ_item_fix (m : List (String × JValue)) :
    normalize_hackathon_q_item (asDict (normalize_hackathon_q_item m)) = normalize_hackathon_q_item m := by
  have h1 := ss_idem (pyGet m "question") "Question" (by decide)
  have h2 := ss_idem (pyGet m "suggested_response") "Provide a confident response" (by decide)
  simp [normalize_hackathon_q_item, asDict_dict, pyGet_cons_self, pyGet_cons_ne, safe_list_list,
    h1, h2]

/-- The common-questions loop is idempotent. -/
theorem commonQ_items_idem (l : List JValue) :
    normalize_common_q_items (normalize_common_q_items l) = normalize_common_q_items l := by
  unfold normalize_common_q_items
  apply filterMap_idem_of
  intro v x hfx
  cases v with
  | dict m =>
    simp only [Option.some.injEq] at hfx
    subst hfx
    have hfix := commonQ_item_fix m
    cases hshape : normalize_common_q_item m with
    | dict L =>
      rw [hshape] at hfix
      simp only [asDict] at hfix
      exact congrArg some hfix
    | null => exact absurd hshape (by simp [normalize_common_q_item])
    | bool b => exact absurd hshape (by simp [normalize_common_q_item])
    | int n => exact absurd hshape (by simp [normalize_common_q_item])
    | str s => exact absurd hshape (by simp [normalize_common_q_item])
    | list l2 => exact absurd hshape (by simp [normalize_common_q_item])
  | null => exact Option.noConfusion hfx
  | bool b => exact Option.noConfusion hfx
  | int n => exact Option.noConfusion hfx
  | str s => exact Option.noConfusion hfx
  | list l2 => exact Option.noConfusion hfx

/-- The hackathon-questions loop is idempotent. -/
theorem hackathonQ_items_idem (l : List JValue) :
    normalize_hackathon_q_items (normalize_hackathon_q_items l) = normalize_hackathon_q_items l := by
  unfold normalize_hackathon_q_items
  apply filterMap_idem_of
  intro v x hfx
  cases v with
  | dict m =>
    simp only [Option.some.injEq] at hfx
    subst hfx
    have hfix := hackathonQ_item_fix m
    cases hshape : normalize_hackathon_q_item m with
    | dict L =>
      rw [hshape] at hfix
      simp only [asDict] at hfix
      exact congrArg some hfix
    | null => exact absurd hshape (by simp [normalize_hackathon_q_item])
    | bool b => exact absurd hshape (by simp [normalize_hackathon_q_item])
    | int n => exact absurd hshape (by simp [normalize_hackathon_q_item])
    | str s => exact absurd hshape (by simp [normalize_hackathon_q_item])
    | list l2 => exact absurd hshape (by simp [normalize_hackathon_q_item])
  | null => exact Option.noConfusion hfx
  | bool b => exact Option.noConfusion hfx
  | int n => exact Option.noConfusion hfx
  | str s => exact Option.noConfusion hfx
  | list l2 => exact Option.noConfusion hfx

/-- The viva normalizer is idempotent. -/
theorem normalize_viva_idem (d : JValue) :
    normalize_viva (normalize_viva d) = normalize_viva d := by
  have h1 := ss_idem (pyGet (asDict d) "project_overview_explanation") "This project solves a real problem using modern technology" (by decide)
  have h2 := ss_idem (pyGet (asDict d) "problem_statement_explanation") "The problem affects users in their daily workflow" (by decide)
  have h3 := ss_idem (pyGet (asDict d) "architecture_explanation") "The system uses a standard three-tier architecture" (by decide)
  have h4 := ss_idem (pyGet (asDict d) "unique_feature_explanation") "What makes this project special is its focus on the user experience" (by decide)
  have hcq := commonQ_items_idem (asList (pyGetD (asDict d) "common_questions" (.list [])))
  have hhq := hackathonQ_items_idem (asList (pyGetD (asDict d) "hackathon_questions" (.list [])))
  have hcdef : normalize_common_q_items default_common_questions = default_common_questions := rfl
  have hhdef : normalize_hackathon_q_items default_hackathon_questions = default_hackathon_questions := rfl
  have hcdne : default_common_questions.isEmpty = false := rfl
  have hhdne : default_hackathon_questions.isEmpty = false := rfl
  cases hc1 : (normalize_common_q_items (asList (pyGetD (asDict d) "common_questions" (.list [])))).isEmpty with
  | true =>
    cases hc2 : (normalize_hackathon_q_items (asList (pyGetD (asDict d) "hackathon_questions" (.list [])))).isEmpty with
    | true =>
      simp [normalize_viva, asDict_dict, asList_list, pyGet_cons_self, pyGet_cons_ne,
        pyGetD_cons_self, pyGetD_cons_ne, hc1, hc2, hcdef, hhdef, hcdne, hhdne, h1, h2, h3, h4]
    | false =>
      simp [normalize_viva, asDict_dict, asList_list, pyGet_cons_self, pyGet_cons_ne,
        pyGetD_cons_self, pyGetD_cons_ne, hc1, hc2, hcdef, hcdne, hhq, h1, h2, h3, h4]
  | false =>
    cases hc2 : (normalize_hackathon_q_items (asList (pyGetD (asDict d) "hackathon_questions" (.list [])))).isEmpty with
    | true =>
      simp [normalize_viva, asDict_dict, asList_list, pyGet_cons_self, pyGet_cons_ne,
        pyGetD_cons_self, pyGetD_cons_ne, hc1, hc2, hcq, hhdef, hhdne, h1, h2, h3, h4]
    | false =>
      simp [normalize_viva, asDict_dict, asList_list, pyGet_cons_self, pyGet_cons_ne,
        pyGetD_cons_self, pyGetD_cons_ne, hc1, hc2, hcq, hhq, h1, h2, h3, h4]

/-- The fallback blueprint is a fixed point of `normalize_blueprint`. -/
theorem normalize_fallback_fix :
    normalize_blueprint get_fallback_blueprint = get_fallback_blueprint := by
  have hs := normalize_summary_idem (.dict [])
  have hf := normalize_features_idem (.dict [])
  have hfe := normalize_feasibility_idem (.dict [])
  have hsf := normalize_system_flow_idem (.dict [])
  have hts := normalize_tech_stack_idem (.dict [])
  have hcmp := normalize_comparison_idem (.dict [])
    (by simp [safe_list, pyOr, pyGet, asDict, pyTruthy, dictLookup])
  have hv := normalize_viva_idem (.dict [])
  have hp := normalize_pitch_idem (.dict [])
  have hd := normalize_diagrams_idem (.dict [])
  unfold get_fallback_blueprint
  unfold normalize_blueprint
  rw [if_neg (by simp [pyTruthy, isDictB])]
  simp [asDict_dict, pyGetD_cons_self, pyGetD_cons_ne, hs, hf, hfe, hsf, hts, hcmp, hv, hp, hd]

/-- Counterexample to claim C6: `normalize_blueprint` is not idempotent.
For input `{"comparison": {"why_still_valuable": []}}` the first pass keeps
the empty list (the `or`-alias chain hands `[]` to `_safe_list`, which keeps
lists as-is), while the second pass finds both why-valuable keys falsy /
absent and substitutes the two-element default list. -/
theorem claim_C6_counterexample :
    normalize_blueprint (normalize_blueprint (.dict [("comparison", .dict [("why_still_valuable", .list [])])])) ≠
      normalize_blueprint (.dict [("comparison", .dict [("why_still_valuable", .list [])])]) :=
  fun h =>
    absurd (congrArg (fun v => (asList (jGet (jGet v "comparison") "why_this_project_is_still_valuable")).length) h)
      (by decide)

/-- Claim C6 as amended: `normalize_blueprint` is idempotent on every input
whose normalized comparison section has a non-empty
`why_this_project_is_still_valuable` list (the only field a second pass can
change); re-normalizing such an output returns a deep-equal structure. -/
theorem claim_C6_idempotence_amended :
    ∀ x, jGet (jGet (normalize_blueprint x) "comparison") "why_this_project_is_still_valuable" ≠ .list [] →
      normalize_blueprint (normalize_blueprint x) = normalize_blueprint x := by
  intro x hx
  cases hcond : (!pyTruthy x || !isDictB x) with
  | true =>
    have h1 : normalize_blueprint x = get_fallback_blueprint := by
      unfold normalize_blueprint
      rw [if_pos hcond]
    rw [h1]
    exact normalize_fallback_fix
  | false =>
    cases x with
    | dict m =>
      have hne : ¬((!pyTruthy (JValue.dict m) || !isDictB (JValue.dict m)) = true) := by
        rw [hcond]
        exact Bool.false_ne_true
      have hstep : normalize_blueprint (.dict m) = .dict [
          ("summary", normalize_summary (pyGetD m "summary" (.dict []))),
          ("features", normalize_features (pyGetD m "features" (.dict []))),
          ("feasibility", normalize_feasibility (pyGetD m "feasibility" (.dict []))),
          ("system_flow", normalize_system_flow (pyGetD m "system_flow" (.dict []))),
          ("tech_stack", normalize_tech_stack (pyGetD m "tech_stack" (.dict []))),
          ("comparison", normalize_comparison (pyGetD m "comparison" (.dict []))),
          ("viva", normalize_viva (pyGetD m "viva" (.dict []))),
          ("pitch", normalize_pitch (pyGetD m "pitch" (.dict []))),
          ("diagrams", normalize_diagrams (pyGetD m "diagrams" (.dict [])))] := by
        unfold normalize_blueprint
        rw [if_neg hne]
        rfl
      rw [hstep] at hx ⊢
      simp only [jGet, asDict_dict, pyGet_cons_self, pyGet_cons_ne, ne_eq, String.reduceEq,
        not_false_eq_true] at hx
      simp only [normalize_comparison, asDict_dict, pyGet_cons_self, pyGet_cons_ne, ne_eq,
        String.reduceEq, not_false_eq_true] at hx
      have hw : safe_list (pyOr (pyGet (asDict (pyGetD m "comparison" (.dict []))) "why_this_project_is_still_valuable") (pyGet (asDict (pyGetD m "comparison" (.dict []))) "why_still_valuable")) [.str "Learning experience", .str "Tailored to specific requirements"] ≠ [] := by
        intro hW
        apply hx
        rw [hW]
      have hcmp := normalize_comparison_idem (pyGetD m "comparison" (.dict [])) hw
      unfold normalize_blueprint
      rw [if_neg (by simp [pyTruthy, isDictB])]
      simp [asDict_dict, pyGetD_cons_self, pyGetD_cons_ne, normalize_summary_idem,
        normalize_features_idem, normalize_feasibility_idem, normalize_system_flow_idem,
        normalize_tech_stack_idem, hcmp, normalize_viva_idem, normalize_pitch_idem,
        normalize_diagrams_idem]
    | null => simp [pyTruthy, isDictB] at hcond
    | bool b => simp [pyTruthy, isDictB] at hcond
    | int n => simp [pyTruthy, isDictB] at hcond
    | str s => simp [pyTruthy, isDictB] at hcond
    | list l => simp [pyTruthy, isDictB] at hcond

/-- Witness for the amended C6: re-normalizing `normalize_blueprint None`
changes nothing. -/
theorem claim_C6_idempotence_amended_witness :
    normalize_blueprint (normalize_blueprint .null) = normalize_blueprint .null :=
  claim_C6_idempotence_amended .null
    (fun h =>
      absurd (congrArg (fun v => (asList v).length) h) (by decide))

/-- The attempt counts as a failure for the cascade loop: a returned
failure dict or an exception. -/
def provFailed : ProviderOutcome → Bool
  | .ret (.ok _) => false
  | .ret (.err _) => true
  | .exn _ => true

/-- The reason string the loop appends for a failed attempt:
`f"{provider}: {result.get('error', 'Unknown error')}"` or the exception
text. -/
def failureReason (q : Provider) (o : ProviderOutcome) : String :=
  match o with
  | .ret (.ok _) => providerName q ++ ": " ++ "Unknown error"
  | .ret (.err e) => providerName q ++ ": " ++ e
  | .exn msg => providerName q ++ ": " ++ msg

/-- When every provider in the list fails, the cascade returns the
aggregate failure: the fixed busy message, and one reason per attempted
provider in attempt order. -/
theorem runCascade_all_fail (env : Provider → String → ProviderOutcome) (p : String) :
    ∀ (ps : List Provider) (errs : List String),
      (∀ q ∈ ps, provFailed (env q p) = true) →
      runCascade env p ps errs =
        ({ success := false, content := none, provider_used := none,
           error := some busyMessage,
           error_details := some (errs ++ ps.map (fun q => failureReason q (env q p))),
           is_demo := false }, ps) := by
  intro ps
  induction ps with
  | nil => intro errs _; simp [runCascade]
  | cons q t ih =>
    intro errs hall
    have hq := hall q (List.mem_cons_self q t)
    have ht : ∀ r ∈ t, provFailed (env r p) = true :=
      fun r hr => hall r (List.mem_cons_of_mem q hr)
    cases ho : env q p with
    | ret r =>
      cases r with
      | ok c => rw [ho] at hq; exact absurd hq (by simp [provFailed])
      | err e =>
        simp only [runCascade, ho, ih (errs ++ [providerName q ++ ": " ++ e]) ht]
        simp [failureReason, ho]
    | exn msg =>
      simp only [runCascade, ho, ih (errs ++ [providerName q ++ ": " ++ msg]) ht]
      simp [failureReason, ho]

/-- Claim C2: the cascade tries configured providers in the strict order
gemini, groq, openrouter — with all three configured, gemini rate-limited
and groq auth-failed, openrouter is attempted and its success is returned
tagged `provider_used = "openrouter"` after exactly one attempt per provider
in that order; and when the first provider succeeds, it alone is attempted
(no later provider is ever called) and its success is returned tagged with
it. -/
theorem claim_C2_cascade_order :
    (∀ (gk grk ork : String) (env : Provider → String → ProviderOutcome) (p c : String),
      hasValidKey gk = true → hasValidKey grk = true → hasValidKey ork = true →
      env .gemini p = .ret (.err "Rate limited (429)") →
      env .groq p = .ret (.err "Authentication failed (401)") →
      env .openrouter p = .ret (.ok c) →
      (generate_with_fallback gk grk ork env p).1.success = true ∧
      (generate_with_fallback gk grk ork env p).1.provider_used = some "openrouter" ∧
      (generate_with_fallback gk grk ork env p).1.content = some c ∧
      (generate_with_fallback gk grk ork env p).2 = [.gemini, .groq, .openrouter]) ∧
    (∀ (gk grk ork : String) (env : Provider → String → ProviderOutcome) (p c : String),
      hasValidKey gk = true →
      env .gemini p = .ret (.ok c) →
      (generate_with_fallback gk grk ork env p).1.success = true ∧
      (generate_with_fallback gk grk ork env p).1.provider_used = some "gemini" ∧
      (generate_with_fallback gk grk ork env p).1.content = some c ∧
      (generate_with_fallback gk grk ork env p).2 = [.gemini]) := by
  constructor
  · intro gk grk ork env p c h1 h2 h3 e1 e2 e3
    have hd : isDemoMode gk grk ork = false := by simp [isDemoMode, h1]
    simp [generate_with_fallback, hd, build_provider_list, h1, h2, h3, runCascade, e1, e2, e3,
      providerName]
  · intro gk grk ork env p c h1 e1
    have hd : isDemoMode gk grk ork = false := by simp [isDemoMode, h1]
    simp [generate_with_fallback, hd, build_provider_list, h1, runCascade, e1, providerName]

/-- Claim C4: when every configured provider fails, the returned failure's
user-facing `error` is exactly the fixed generic sentence, and
`error_details` holds exactly one reason per attempted provider, in attempt
order. -/
theorem claim_C4_total_failure :
    busyMessage = "AI services are temporarily busy. Please try again later." ∧
    (∀ (gk grk ork : String) (env : Provider → String → ProviderOutcome) (p : String),
      isDemoMode gk grk ork = false →
      (∀ q ∈ build_provider_list gk grk ork, provFailed (env q p) = true) →
      (generate_with_fallback gk grk ork env p).1.success = false ∧
      (generate_with_fallback gk grk ork env p).1.error = some busyMessage ∧
      (generate_with_fallback gk grk ork env p).1.error_details =
        some ((build_provider_list gk grk ork).map (fun q => failureReason q (env q p))) ∧
      (generate_with_fallback gk grk ork env p).2 = build_provider_list gk grk ork) := by
  refine ⟨rfl, ?_⟩
  intro gk grk ork env p hd hall
  simp [generate_with_fallback, hd, runCascade_all_fail env p (build_provider_list gk grk ork) [] hall]

/-- Every branch of the demo responder returns a success tagged as demo. -/
theorem get_demo_response_tagged (p : String) :
    (get_demo_response p).success = true ∧ (get_demo_response p).is_demo = true := by
  dsimp only [get_demo_response]
  constructor <;> split <;> first | rfl | (split <;> rfl)

/-- Claim C5: a provider is configured exactly when its credential is valid
(non-blank after trimming and not the placeholder); with zero providers
configured the cascade attempts no provider at all and returns a success
tagged `provider_used = "demo"`. -/
theorem claim_C5_demo_mode :
    (∀ k : String, hasValidKey k = true ↔ (pyStrip k ≠ "" ∧ k ≠ "YOUR_API_KEY_HERE")) ∧
    (∀ gk grk ork : String,
      (Provider.gemini ∈ build_provider_list gk grk ork ↔ hasValidKey gk = true) ∧
      (Provider.groq ∈ build_provider_list gk grk ork ↔ hasValidKey grk = true) ∧
      (Provider.openrouter ∈ build_provider_list gk grk ork ↔ hasValidKey ork = true)) ∧
    (∀ (gk grk ork : String) (env : Provider → String → ProviderOutcome) (p : String),
      hasValidKey gk = false → hasValidKey grk = false → hasValidKey ork = false →
      (generate_with_fallback gk grk ork env p).2 = [] ∧
      (generate_with_fallback gk grk ork env p).1.success = true ∧
      (generate_with_fallback gk grk ork env p).1.provider_used = some "demo" ∧
      (generate_with_fallback gk grk ork env p).1.is_demo = true) := by
  refine ⟨?_, ?_, ?_⟩
  · intro k
    simp only [hasValidKey, Bool.and_eq_true, decide_eq_true_eq, ne_eq]
    constructor
    · rintro ⟨⟨_, h2⟩, h3⟩
      exact ⟨h2, h3⟩
    · rintro ⟨h2, h3⟩
      refine ⟨⟨?_, h2⟩, h3⟩
      intro he
      apply h2
      rw [he]
      rfl
  · intro gk grk ork
    cases hg : hasValidKey gk <;> cases hgr : hasValidKey grk <;> cases ho : hasValidKey ork <;>
      simp [build_provider_list, hg, hgr, ho]
  · intro gk grk ork env p h1 h2 h3
    have hd : isDemoMode gk grk ork = true := by simp [isDemoMode, h1, h2, h3]
    have ht := get_demo_response_tagged p
    refine ⟨?_, ?_, ?_, ?_⟩ <;>
      simp [generate_with_fallback, hd, ht.1, ht.2]

/-- Witness for C5: with three empty keys the result is an untried demo
success. -/
theorem claim_C5_demo_mode_witness :
    (generate_with_fallback "" "" "" (fun _ _ => .exn "never") "hello").2 = [] ∧
    (generate_with_fallback "" "" "" (fun _ _ => .exn "never") "hello").1.success = true ∧
    (generate_with_fallback "" "" "" (fun _ _ => .exn "never") "hello").1.provider_used = some "demo" :=
  have h := claim_C5_demo_mode.2.2 "" "" "" (fun _ _ => .exn "never") "hello" rfl rfl rfl
  ⟨h.1, h.2.1, h.2.2.1⟩

/-- Claim C3: whenever the underlying cascade call succeeds with text `c`,
the JSON variant still succeeds: its content is the parsed structured data
when the fence-stripped text parses as JSON, and otherwise the original raw
text together with a warning field — a parse failure never turns the
success into a failure.  Concretely, raw text ` ```json\n{"a":1}\n``` `
yields the parsed object `{"a": 1}`, not the fenced string. -/
theorem claim_C3_json_cascade :
    (∀ (gk grk ork : String) (env : Provider → String → ProviderOutcome) (p c : String),
      (generate_with_fallback gk grk ork env (p ++ json_instruction)).1.success = true →
      (generate_with_fallback gk grk ork env (p ++ json_instruction)).1.content = some c →
      (generate_json_with_fallback gk grk ork env p).1.success = true ∧
      (match jsonLoads (extract_json_text c) with
       | some parsed =>
           (generate_json_with_fallback gk grk ork env p).1.content = some parsed ∧
           (generate_json_with_fallback gk grk ork env p).1.warning = none
       | none =>
           (generate_json_with_fallback gk grk ork env p).1.content = some (.str c) ∧
           (generate_json_with_fallback gk grk ork env p).1.warning = some jsonWarningText)) ∧
    (∀ (gk grk ork : String) (env : Provider → String → ProviderOutcome) (p : String),
      hasValidKey gk = true →
      env .gemini (p ++ json_instruction) = .ret (.ok "```json\n\x7b\"a\":1\x7d\n```") →
      (generate_json_with_fallback gk grk ork env p).1.success = true ∧
      (generate_json_with_fallback gk grk ork env p).1.content = some (.dict [("a", .int 1)])) := by
  constructor
  · intro gk grk ork env p c hs hc
    cases hj : jsonLoads (extract_json_text c) with
    | some parsed =>
      simp [generate_json_with_fallback, hs, hc, hj]
    | none =>
      simp [generate_json_with_fallback, hs, hc, hj]
  · intro gk grk ork env p h1 henv
    have hd : isDemoMode gk grk ork = false := by simp [isDemoMode, h1]
    have hrun : generate_with_fallback gk grk ork env (p ++ json_instruction) =
        ({ success := true, content := some "```json\n\x7b\"a\":1\x7d\n```",
           provider_used := some "gemini", error := none, error_details := none,
           is_demo := false }, [.gemini]) := by
      simp [generate_with_fallback, hd, build_provider_list, h1, runCascade, henv, providerName]
    have hparse : jsonLoads (extract_json_text "```json\n\x7b\"a\":1\x7d\n```") =
        some (.dict [("a", .int 1)]) := rfl
    simp [generate_json_with_fallback, hrun, hparse]

/-- Witness for C3: unparseable text keeps success and gains a warning;
fenced JSON is returned parsed. -/
theorem claim_C3_json_cascade_witness :
    (generate_json_with_fallback "k" "" "" (fun _ _ => .ret (.ok "hello")) "p").1.success = true ∧
    (generate_json_with_fallback "k" "" "" (fun _ _ => .ret (.ok "hello")) "p").1.warning = some jsonWarningText ∧
    (generate_json_with_fallback "k" "" ""
        (fun _ _ => .ret (.ok "```json\n\x7b\"a\":1\x7d\n```")) "p").1.content =
      some (.dict [("a", .int 1)]) :=
  have h1 := claim_C3_json_cascade.1 "k" "" "" (fun _ _ => .ret (.ok "hello")) "p" "hello" rfl rfl
  have h2 := claim_C3_json_cascade.2 "k" "" "" (fun _ _ => .ret (.ok "```json\n\x7b\"a\":1\x7d\n```")) "p" rfl rfl
  ⟨h1.1, h1.2.2, h2.2⟩

/-- Witness for C2: a concrete three-provider environment realizes the
rate-limited / auth-failed / success cascade, and a succeeding first
provider is the only attempt. -/
theorem claim_C2_cascade_order_witness :
    (generate_with_fallback "k1" "k2" "k3"
        (fun pr _ => match pr with
          | Provider.gemini => ProviderOutcome.ret (.err "Rate limited (429)")
          | Provider.groq => ProviderOutcome.ret (.err "Authentication failed (401)")
          | Provider.openrouter => ProviderOutcome.ret (.ok "answer")) "p").1.provider_used = some "openrouter" ∧
    (generate_with_fallback "k1" "k2" "k3"
        (fun pr _ => match pr with
          | Provider.gemini => ProviderOutcome.ret (.err "Rate limited (429)")
          | Provider.groq => ProviderOutcome.ret (.err "Authentication failed (401)")
          | Provider.openrouter => ProviderOutcome.ret (.ok "answer")) "p").2 = [.gemini, .groq, .openrouter] ∧
    (generate_with_fallback "k1" "" "" (fun _ _ => ProviderOutcome.ret (.ok "hi")) "p").2 = [.gemini] :=
  have h := claim_C2_cascade_order.1 "k1" "k2" "k3"
    (fun pr _ => match pr with
      | Provider.gemini => ProviderOutcome.ret (.err "Rate limited (429)")
      | Provider.groq => ProviderOutcome.ret (.err "Authentication failed (401)")
      | Provider.openrouter => ProviderOutcome.ret (.ok "answer")) "p" "answer" rfl rfl rfl rfl rfl rfl
  have h2 := claim_C2_cascade_order.2 "k1" "" "" (fun _ _ => ProviderOutcome.ret (.ok "hi")) "p" "hi" rfl rfl
  ⟨h.2.1, h.2.2.2, h2.2.2.2⟩

/-- Witness for C4: one configured provider raising an exception produces
the fixed busy message and a single-entry diagnostics list. -/
theorem claim_C4_total_failure_witness :
    (generate_with_fallback "k" "" "" (fun _ _ => .exn "boom") "p").1.error = some busyMessage ∧
    (generate_with_fallback "k" "" "" (fun _ _ => .exn "boom") "p").1.error_details = some ["gemini: boom"] :=
  have h := claim_C4_total_failure.2 "k" "" "" (fun _ _ => .exn "boom") "p" rfl (fun q _ => rfl)
  ⟨h.2.1, by rw [h.2.2.1]; rfl⟩
